import Mathlib

/-!
Verification development for the tender-audit rule engine.

The Python scripts under scrutiny compare a tender announcement record with a
bidding-instructions record through a fixed battery of per-item checks and
assemble the verdicts into an audit report.  This file gives a shallow
embedding of the relevant data model and operations:

* `PyVal` / `PyDict` model the duck-typed JSON-style records the validators
  consume (string keys, string or integer values, `get` with defaults and
  `[]`-access that can raise `KeyError`).
* `PRes` is the evaluation monad: Python exceptions (`KeyError`, `TypeError`,
  `AttributeError`) become explicit error values.
* Namespace `TCV` embeds the 23-item validator of
  `tender_compliance_validator.py`, namespace `TAS` the 22-item validator and
  report summary of `tender_audit_system.py`, namespace `V21` the smart
  matcher and smart check items of `tender_audit_system_v2.1.py`, namespace
  `C23` the checklist and report assembler of the 23-item checker script,
  and namespace `GO` the delegated-extraction error handling of
  `tender_audit_system.py` / `tender_audit_gemma_only.py`.

Floating-point similarity scores are embedded as exact rationals; all string
matching is re-implemented on character lists so that concrete runs reduce
inside the kernel.
-/

set_option maxRecDepth 200000

namespace TenderAudit

/-! ## Python exceptions and the evaluation monad -/

/-- The Python exceptions the embedded code can raise. -/
inductive PyErr
  | keyError (k : String)
  | typeError
  | attributeError
deriving DecidableEq

/-- Result of running a fragment of Python code: a value or a raised
exception. -/
inductive PRes (α : Type)
  | ok (a : α)
  | err (e : PyErr)
deriving DecidableEq

instance : Monad PRes where
  pure := PRes.ok
  bind := fun x f => match x with | .ok a => f a | .err e => .err e

/-! ## Python values and dictionaries -/

/-- A Python value as stored in the extracted field records: the extractors
produce strings and integers only. -/
inductive PyVal
  | str (s : String)
  | int (n : Int)
deriving DecidableEq

/-- A Python dict with string keys, in insertion order. -/
def PyDict := List (String × PyVal)

instance : DecidableEq PyDict := fun a b => List.hasDecEq a b

/-- `d.get(k)` without a default: `some v` when present, `none` (Python
`None`) otherwise. -/
def PyDict.get? (d : PyDict) (k : String) : Option PyVal :=
  (d.find? (fun p => p.1 = k)).map (fun p => p.2)

/-- `d.get(k, default)`. -/
def PyDict.getD (d : PyDict) (k : String) (v : PyVal) : PyVal :=
  (d.get? k).getD v

/-- `d[k]`: raises `KeyError` when the key is absent. -/
def PyDict.item (d : PyDict) (k : String) : PRes PyVal :=
  match d.get? k with
  | some v => .ok v
  | none => .err (.keyError k)

/-! ## Python primitive operations -/

/-- Equality between Python values (`==`), total: values of different types
compare unequal without raising. -/
def pyEq : PyVal → PyVal → Bool
  | .str s, .str t => s = t
  | .int m, .int n => m = n
  | _, _ => false

/-- `str(v)` / f-string interpolation of a value. -/
def pyStrOf : PyVal → String
  | .str s => s
  | .int n => toString n

/-- f-string interpolation of `d.get(k)` when no default was supplied:
Python renders a missing key as `None`. -/
def pyStrOptOf : Option PyVal → String
  | some v => pyStrOf v
  | none => "None"

/-- Substring containment on character lists. -/
def listInfix : List Char → List Char → Bool
  | ns, [] => ns.isEmpty
  | ns, h :: t => ns.isPrefixOf (h :: t) || listInfix ns t

/-- `needle in hay` for two Python strings. -/
def strContains (hay needle : String) : Bool :=
  listInfix needle.toList hay.toList

/-- `needle in v` where `v` is a dict value: raises `TypeError` when `v` is
an integer. -/
def pyInStr (needle : String) (v : PyVal) : PRes Bool :=
  match v with
  | .str s => .ok (strContains s needle)
  | .int _ => .err .typeError

/-- `lo <= v < hi` on a dict value: raises `TypeError` when `v` is a
string. -/
def pyIntRange (lo : Int) (v : PyVal) (hi : Int) : PRes Bool :=
  match v with
  | .int n => .ok (lo ≤ n ∧ n < hi)
  | .str _ => .err .typeError

/-- `v > 0` on a dict value: raises `TypeError` when `v` is a string. -/
def pyGtZero (v : PyVal) : PRes Bool :=
  match v with
  | .int n => .ok (0 < n)
  | .str _ => .err .typeError

/-- A string method (`.strip()`, `.replace(...)`) applied to a dict value:
raises `AttributeError` when the value is an integer. -/
def pyAsStr (v : PyVal) : PRes String :=
  match v with
  | .str s => .ok s
  | .int _ => .err .attributeError

/-- `"; ".join(errors)`. -/
def joinSemi (l : List String) : String :=
  String.intercalate "; " l

/-- Python `str.strip()`: drop leading and trailing whitespace. -/
def pyStrip (s : String) : String :=
  String.mk (((s.toList.dropWhile Char.isWhitespace).reverse.dropWhile
    Char.isWhitespace).reverse)

/-- Python `str.upper()` (ASCII letters; the case numbers are ASCII). -/
def pyUpper (s : String) : String :=
  String.mk (s.toList.map Char.toUpper)

/-- `s.replace(pat, "")` for a single-character pattern, as used by
`validate_item_1` of `tender_audit_system.py` (`.replace("A", "")`): deletes
every occurrence. -/
def pyDropChar (s : String) (c : Char) : String :=
  String.mk (s.toList.filter (fun x => x ≠ c))

/-- `a.startswith(b)`. -/
def pyStartsWith (a b : String) : Bool :=
  b.toList.isPrefixOf a.toList

/-- `a.endswith(b)` for a single-character suffix. -/
def pyEndsWithChar (a : String) (c : Char) : Bool :=
  match a.toList.getLast? with
  | some x => x = c
  | none => false

/-- Digits of a string, keeping only `0-9` (the effect of
`re.sub(r'[^0-9]', '', s)`). -/
def keepDigits (s : String) : List Char :=
  s.toList.filter Char.isDigit

/-- Numeric value of a digit list. -/
def natOfDigits (l : List Char) : Nat :=
  l.foldl (fun acc c => acc * 10 + (c.toNat - 48)) 0

/-! ## The `difflib.SequenceMatcher` ratio

`SmartTextMatcher.similarity_ratio` calls
`difflib.SequenceMatcher(None, str1, str2).ratio()`.  The inputs are short
case-number strings (far below the autojunk threshold), so the ratio is
`2*M/T` where `M` is the total size of the recursively chosen matching
blocks and `T` the sum of the lengths.  `bestBlock` reproduces
`find_longest_match`'s tie-breaking: the maximal block starting earliest in
the first sequence, then earliest in the second. -/

/-- Length of the common prefix of two character lists. -/
def commonPrefixLen : List Char → List Char → Nat
  | x :: xs, y :: ys => if x = y then commonPrefixLen xs ys + 1 else 0
  | _, _ => 0

/-- Length of the matching block starting at positions `i`, `j`. -/
def matchLenAt (a b : List Char) (i j : Nat) : Nat :=
  commonPrefixLen (a.drop i) (b.drop j)

/-- The longest matching block `(i, j, size)` of two character lists,
maximizing size with ties broken towards the smallest `i`, then the smallest
`j` (the choice `difflib` documents and implements). -/
def bestBlock (a b : List Char) : Nat × Nat × Nat :=
  (List.range a.length).foldl (fun best i =>
    (List.range b.length).foldl (fun best j =>
      let k := matchLenAt a b i j
      if k > best.2.2 then (i, j, k) else best) best) (0, 0, 0)

/-- Total number of matched characters over the recursive matching-block
decomposition.  The fuel argument bounds the recursion depth; each step
removes at least one character from each side, so `a.length + b.length`
fuel always suffices. -/
def totalMatched : Nat → List Char → List Char → Nat
  | 0, _, _ => 0
  | fuel + 1, a, b =>
    let blk := bestBlock a b
    let i := blk.1
    let j := blk.2.1
    let k := blk.2.2
    if k = 0 then 0
    else
      k + totalMatched fuel (a.take i) (b.take j)
        + totalMatched fuel (a.drop (i + k)) (b.drop (j + k))

/-- `SequenceMatcher(None, s, t).ratio()` as an exact rational. -/
def seqRatio (s t : String) : ℚ :=
  let a := s.toList
  let b := t.toList
  if a.length + b.length = 0 then 0
  else 2 * (totalMatched (a.length + b.length) a b : ℚ) / (a.length + b.length)

/-! ## `SmartTextMatcher` (`tender_audit_system_v2.1.py`, lines 72-115)

Note: as shipped, `tender_audit_system_v2.1.py` does not even import — line
558 reads `for key in須知`, which the Python tokenizer reads as the single
identifier `in須知`, a `SyntaxError`.  The individual functions embedded
below are translated from their own (syntactically well-formed) source
text. -/

namespace V21

/-- `SmartTextMatcher.similarity_ratio`: 0 when either string is empty,
otherwise the `SequenceMatcher` ratio. -/
def similarity_ratio (s t : String) : ℚ :=
  if s = "" ∨ t = "" then 0 else seqRatio s t

/-- `SmartTextMatcher.is_case_number_similar`: strips and upper-cases both
case numbers; equal strings score 1.0; a one-character length difference
between a string and an extension of it scores 0.95 provided one side ends
in `A`; otherwise the similarity ratio decides, with threshold 0.9. -/
def is_case_number_similar (c1 c2 : String) : Bool × ℚ :=
  let case1 := pyUpper (pyStrip c1)
  let case2 := pyUpper (pyStrip c2)
  if case1 = case2 then (true, 1)
  else if (pyStartsWith case1 case2 || pyStartsWith case2 case1)
      && (max case1.toList.length case2.toList.length
          - min case1.toList.length case2.toList.length = 1)
      && (pyEndsWithChar case1 'A' || pyEndsWithChar case2 'A') then
    (true, 19/20)
  else
    let sim := similarity_ratio case1 case2
    (sim > 9/10, sim)

/-- `ValidationStatus` of v2.1. -/
inductive VStatus
  | pass
  | fail
  | warning
  | skip
  | autoFixed
deriving DecidableEq

/-- `ValidationItem` of v2.1 (the dataclass, with the float confidence as an
exact rational). -/
structure ValidationItem where
  itemNumber : Nat
  itemName : String
  status : VStatus
  description : String
  expectedValue : String := ""
  actualValue : String := ""
  confidence : ℚ := 1
  autoFixApplied : Bool := false
  fixDescription : String := ""
deriving DecidableEq

/-- One-decimal percentage rendering used by the v2.1 description strings
(`f"{x*100:.1f}"`). -/
def fmtPct (q : ℚ) : String :=
  let t : Int := Int.floor (q * 1000 + 1/2)
  toString (t / 10) ++ "." ++ toString (t % 10)

/-- `SmartComplianceValidator._validate_item_1_smart`: smart case-number and
case-name comparison.  Calling `.strip()` on an integer field raises
`AttributeError`. -/
def validate_item_1_smart (a i : PyDict) : PRes ValidationItem := do
  let base : ValidationItem :=
    { itemNumber := 1
      itemName := "案號案名一致性"
      status := .pass
      description := ""
      expectedValue := "案號:" ++ pyStrOf (a.getD "案號" (.str "N/A")) ++
        ", 案名:" ++ pyStrOf (a.getD "案名" (.str "N/A"))
      actualValue := "案號:" ++ pyStrOf (i.getD "案號" (.str "N/A")) ++
        ", 案名:" ++ pyStrOf (i.getD "採購標的名稱" (.str "N/A")) }
  let c1 ← pyAsStr (a.getD "案號" (.str ""))
  let c2 ← pyAsStr (i.getD "案號" (.str ""))
  let r := is_case_number_similar c1 c2
  if ¬ r.1 then
    pure { base with
      status := .fail
      description := "案號不一致（相似度:" ++ fmtPct r.2 ++ "%）"
      confidence := r.2 }
  else if r.2 < 1 then
    pure { base with
      status := .warning
      description := "案號存在細微差異（可能是結尾A問題）"
      confidence := r.2
      autoFixApplied := true
      fixDescription := "系統判定為可接受的差異" }
  else do
    let n1 ← pyAsStr (a.getD "案名" (.str ""))
    let n2 ← pyAsStr (i.getD "採購標的名稱" (.str ""))
    let nameSim := similarity_ratio n1 n2
    if nameSim < 4/5 then
      pure { base with
        status := .warning
        description := "案名相似度較低（" ++ fmtPct nameSim ++ "%）"
        confidence := nameSim }
    else
      pure { base with description := "案號案名完全一致", confidence := 1 }

/-- `smart_parse_amount` inside `_validate_item_17_smart`: integers pass
through; strings are reduced to their digits (empty result parses as 0). -/
def smart_parse_amount (v : PyVal) : Int :=
  match v with
  | .int n => n
  | .str s =>
    let ds := keepDigits s
    if ds.isEmpty then 0 else (natOfDigits ds : Int)

/-- `SmartComplianceValidator._validate_item_17_smart`: bid-bond comparison
with a 5% relative tolerance band; never raises and never skips. -/
def validate_item_17_smart (a i : PyDict) : ValidationItem :=
  let base : ValidationItem :=
    { itemNumber := 17
      itemName := "押標金一致性"
      status := .pass
      description := "" }
  let g := smart_parse_amount (a.getD "押標金" (.int 0))
  let x := smart_parse_amount (i.getD "押標金金額" (.int 0))
  if g ≠ x then
    if 0 < g ∧ 0 < x then
      let ratio : ℚ := |(g : ℚ) - (x : ℚ)| / max (g : ℚ) (x : ℚ)
      if ratio < 1/20 then
        { base with
          status := .warning
          description := "押標金有小幅差異（" ++ fmtPct ratio ++ "%）"
          confidence := 17/20 }
      else
        { base with
          status := .fail
          description := "押標金不一致：公告" ++ toString g ++ " vs 須知" ++
            toString x
          confidence := 3/5 }
    else
      { base with
        status := .fail
        description := "押標金不一致：公告" ++ toString g ++ " vs 須知" ++
          toString x
        confidence := 7/10 }
  else if 0 < g then
    if ¬ pyEq (i.getD "第19點一定金額" (.str "")) (.str "已勾選") then
      { base with
        status := .warning
        description := "有押標金但須知勾選可能有誤"
        confidence := 4/5 }
    else
      { base with description := "押標金一致：" ++ toString g ++ "元" }
  else
    { base with description := "無押標金" }

/-- Status of a possibly-raising smart validation (`None` when the call
raised). -/
def vStatusOf (r : PRes ValidationItem) : Option VStatus :=
  match r with
  | .ok v => some v.status
  | .err _ => none

/-- Description of a possibly-raising smart validation. -/
def vDescOf (r : PRes ValidationItem) : Option String :=
  match r with
  | .ok v => some v.description
  | .err _ => none

end V21

/-! ## Shared result shapes of the accumulator-style validators

Both `TenderComplianceValidator` classes collect verdicts through
`add_pass` / `add_error`, which append to the lists inside
`self.validation_results`.  A run of the check battery is embedded as the
list of appended records in chronological order; the class state is the
`validation_results` dict itself. -/

/-- One entry of `錯誤詳情`. -/
structure ErrDetail where
  num : Nat
  errType : String
  desc : String
deriving DecidableEq

/-- One `add_pass` / `add_error` event. -/
inductive ResRec
  | pass (n : Nat)
  | fail (e : ErrDetail)
deriving DecidableEq

/-- The item numbers appended to `通過項次`. -/
def passesOf (os : List ResRec) : List Nat :=
  os.filterMap (fun r => match r with | .pass n => some n | .fail _ => none)

/-- The item numbers appended to `失敗項次`. -/
def failsOf (os : List ResRec) : List Nat :=
  os.filterMap (fun r => match r with | .pass _ => none | .fail e => some e.num)

/-- The records appended to `錯誤詳情`. -/
def errsOf (os : List ResRec) : List ErrDetail :=
  os.filterMap (fun r => match r with | .pass _ => none | .fail e => some e)

/-- The `validation_results` dict of the validator classes. -/
structure VResults where
  auditResult : String
  passList : List Nat
  failList : List Nat
  errList : List ErrDetail
  total : Nat
  passCount : Nat
  failCount : Nat
deriving DecidableEq

/-- `d.get(k) == s` (no default: a missing key yields `None`, which compares
unequal to every string). -/
def getEq (d : PyDict) (k s : String) : Bool :=
  match d.get? k with
  | some v => pyEq v (.str s)
  | none => false

/-- `d.get(k) == "已勾選"` -/
def isChecked (d : PyDict) (k : String) : Bool :=
  getEq d k "已勾選"

/-! ## The 23-item validator of `tender_compliance_validator.py` -/

namespace TCV

/-- Item 1 (案號案名一致性): compares `公告["案號"]` with `須知["案號"]` and,
only when those match, `公告["案名"]` with `須知["採購標的名稱"]`; the
`[]`-accesses raise `KeyError` on missing keys. -/
def validate_item_1 (a i : PyDict) : PRes (List ResRec) := do
  let aNo ← a.item "案號"
  let iNo ← i.item "案號"
  if ¬ pyEq aNo iNo then
    pure [.fail ⟨1, "案號不一致",
      "公告:" ++ pyStrOf aNo ++ " vs 須知:" ++ pyStrOf iNo⟩]
  else do
    let aName ← a.item "案名"
    let iName ← i.item "採購標的名稱"
    if ¬ pyEq aName iName then
      pure [.fail ⟨1, "案名不一致",
        "公告:" ++ pyStrOf aName ++ " vs 須知:" ++ pyStrOf iName⟩]
    else
      pure [.pass 1]

/-- Item 2 (公開取得報價金額與設定): guarded on the tendering method;
records nothing when the guard fails. -/
def validate_item_2 (a i : PyDict) : PRes (List ResRec) := do
  let g ← pyInStr "公開取得報價" (a.getD "招標方式" (.str ""))
  if g then do
    let inR ← pyIntRange 150000 (a.getD "採購金額" (.int 0)) 1500000
    let e1 : List String :=
      if ¬ inR then
        ["採購金額" ++ pyStrOptOf (a.get? "採購金額") ++ "不在15萬-150萬範圍"]
      else []
    let e2 : List String :=
      if ¬ getEq a "採購金級距" "未達公告金額" then
        ["採購金級距應為\x27未達公告金額\x27"] else []
    let e3 : List String :=
      if ¬ getEq a "依據法條" "政府採購法第49條" then
        ["依據法條應為\x27政府採購法第49條\x27"] else []
    let e4 : List String :=
      if ¬ isChecked i "第3點逾公告金額十分之一" then ["須知第3點應勾選"] else []
    let errs := e1 ++ e2 ++ e3 ++ e4
    if errs.isEmpty then pure [.pass 2]
    else pure [.fail ⟨2, "公開取得報價設定錯誤", joinSemi errs⟩]
  else
    pure []

/-- Item 3 (公開取得報價須知設定): guarded; records nothing otherwise. -/
def validate_item_3 (a i : PyDict) : PRes (List ResRec) := do
  let g ← pyInStr "公開取得報價" (a.getD "招標方式" (.str ""))
  if g then
    if ¬ isChecked i "第5點逾公告金額十分之一" then
      pure [.fail ⟨3, "須知設定錯誤", "第5點應勾選"⟩]
    else pure [.pass 3]
  else
    pure []

/-- Item 4 (最低標設定): guarded; records nothing otherwise. -/
def validate_item_4 (a i : PyDict) : List ResRec :=
  if getEq a "決標方式" "最低標" then
    if ¬ isChecked i "第59點最低標" ∨ ¬ isChecked i "第59點非64條之2" then
      [.fail ⟨4, "最低標設定錯誤", "須知第59點相關選項應勾選"⟩]
    else [.pass 4]
  else []

/-- Item 5 (底價設定): guarded. -/
def validate_item_5 (a i : PyDict) : List ResRec :=
  if getEq a "訂有底價" "是" then
    if ¬ isChecked i "第6點訂底價" then
      [.fail ⟨5, "底價設定錯誤", "須知第6點應勾選"⟩]
    else [.pass 5]
  else []

/-- Item 6 (非複數決標): guarded, and the body only ever passes. -/
def validate_item_6 (a i : PyDict) : List ResRec :=
  if getEq a "複數決標" "否" then [.pass 6] else []

/-- Item 7 (64條之2): guarded. -/
def validate_item_7 (a i : PyDict) : List ResRec :=
  if getEq a "依64條之2" "否" then
    if ¬ isChecked i "第59點非64條之2" then
      [.fail ⟨7, "64條之2設定錯誤", "須知第59點非64條之2應勾選"⟩]
    else [.pass 7]
  else []

/-- Item 8 (標的分類): simplified in the source to an unconditional pass. -/
def validate_item_8 (a i : PyDict) : List ResRec :=
  [.pass 8]

/-- Item 9 (條約協定): guarded on `適用條約 == "否"`. -/
def validate_item_9 (a i : PyDict) : List ResRec :=
  if getEq a "適用條約" "否" then
    if isChecked i "第8點條約協定" then
      [.fail ⟨9, "條約協定設定錯誤", "須知第8點條約協定不應勾選"⟩]
    else [.pass 9]
  else []

/-- Item 10 (敏感性採購): guarded on `敏感性採購 == "是"`; records nothing
when the announcement flag is anything else. -/
def validate_item_10 (a i : PyDict) : List ResRec :=
  if getEq a "敏感性採購" "是" then
    let e1 : List String :=
      if ¬ isChecked i "第13點敏感性" then ["須知第13點敏感性應勾選"] else []
    let e2 : List String :=
      if ¬ isChecked i "第8點禁止大陸" then ["須知第8點禁止大陸應勾選"] else []
    let errs := e1 ++ e2
    if errs.isEmpty then [.pass 10]
    else [.fail ⟨10, "敏感性採購設定錯誤", joinSemi errs⟩]
  else []

/-- Item 11 (國安採購): guarded on `國安採購 == "是"`. -/
def validate_item_11 (a i : PyDict) : List ResRec :=
  if getEq a "國安採購" "是" then
    let e1 : List String :=
      if ¬ isChecked i "第13點國安" then ["須知第13點國安應勾選"] else []
    let e2 : List String :=
      if ¬ isChecked i "第8點禁止大陸" then ["須知第8點禁止大陸應勾選"] else []
    let errs := e1 ++ e2
    if errs.isEmpty then [.pass 11]
    else [.fail ⟨11, "國安採購設定錯誤", joinSemi errs⟩]
  else []

/-- Item 12 (增購權利): two-sided guard; records nothing when the flag is
neither `是` nor `無`. -/
def validate_item_12 (a i : PyDict) : List ResRec :=
  if getEq a "增購權利" "是" then
    if ¬ isChecked i "第7點保留增購" then
      [.fail ⟨12, "增購權利設定錯誤", "須知第7點保留增購應勾選"⟩]
    else if isChecked i "第7點未保留增購" then
      [.fail ⟨12, "增購權利設定矛盾", "不應同時勾選保留與未保留"⟩]
    else [.pass 12]
  else if getEq a "增購權利" "無" then
    if ¬ isChecked i "第7點未保留增購" then
      [.fail ⟨12, "增購權利設定錯誤", "須知第7點未保留增購應勾選"⟩]
    else [.pass 12]
  else []

/-- Items 13-16 (標準設定): four guarded checks in one method. -/
def validate_items_13_to_16 (a i : PyDict) : List ResRec :=
  (if getEq a "特殊採購" "否" then
    if ¬ isChecked i "第4點非特殊採購" then
      [.fail ⟨13, "特殊採購設定錯誤", "須知第4點應勾選"⟩]
    else [.pass 13]
  else []) ++
  (if getEq a "統包" "否" then
    if ¬ isChecked i "第35點非統包" then
      [.fail ⟨14, "統包設定錯誤", "須知第35點應勾選"⟩]
    else [.pass 14]
  else []) ++
  (if getEq a "協商措施" "否" then
    if ¬ isChecked i "第54點不協商" then
      [.fail ⟨15, "協商措施設定錯誤", "須知第54點應勾選"⟩]
    else [.pass 15]
  else []) ++
  (if getEq a "電子領標" "是" then
    if ¬ isChecked i "第9點電子領標" then
      [.fail ⟨16, "電子領標設定錯誤", "須知第9點應勾選"⟩]
    else [.pass 16]
  else [])

/-- Item 17 (押標金): unguarded equality on the two amounts (defaulting to
0), then a positivity test that raises `TypeError` on a string amount. -/
def validate_item_17 (a i : PyDict) : PRes (List ResRec) := do
  let g := a.getD "押標金" (.int 0)
  let x := i.getD "押標金金額" (.int 0)
  if ¬ pyEq g x then
    pure [.fail ⟨17, "押標金不一致",
      "公告:" ++ pyStrOf g ++ " vs 須知:" ++ pyStrOf x⟩]
  else do
    let pos ← pyGtZero g
    if pos then
      if ¬ isChecked i "第19點一定金額" then
        pure [.fail ⟨17, "押標金設定錯誤", "有押標金時須知第19點一定金額應勾選"⟩]
      else pure [.pass 17]
    else
      if ¬ isChecked i "第19點無需押標金" then
        pure [.fail ⟨17, "押標金設定錯誤", "無押標金時須知第19點無需繳納應勾選"⟩]
      else pure [.pass 17]

/-- Item 18 (身障優先): always records (else-branch passes). -/
def validate_item_18 (a i : PyDict) : List ResRec :=
  if getEq a "優先身障" "是" then
    if ¬ isChecked i "第59點身障優先" then
      [.fail ⟨18, "身障優先設定錯誤", "須知第59點身障優先應勾選"⟩]
    else [.pass 18]
  else [.pass 18]

/-- Item 20 (外國廠商): records nothing when the flag is neither `可` nor
`不可`. -/
def validate_item_20 (a i : PyDict) : List ResRec :=
  if getEq a "外國廠商" "可" then
    if ¬ isChecked i "第8點可參與" then
      [.fail ⟨20, "外國廠商設定錯誤", "須知第8點可參與應勾選"⟩]
    else [.pass 20]
  else if getEq a "外國廠商" "不可" then
    if ¬ isChecked i "第8點不可參與" then
      [.fail ⟨20, "外國廠商設定錯誤", "須知第8點不可參與應勾選"⟩]
    else [.pass 20]
  else []

/-- Item 21 (中小企業): always records. -/
def validate_item_21 (a i : PyDict) : List ResRec :=
  if getEq a "限定中小企業" "是" then
    if ¬ isChecked i "第8點不可參與" then
      [.fail ⟨21, "中小企業設定錯誤", "限定中小企業時須知第8點不可參與應勾選"⟩]
    else [.pass 21]
  else [.pass 21]

/-- Item 23 (開標方式): records nothing when the announcement method
mentions neither 不分段 nor 分二段. -/
def validate_item_23 (a i : PyDict) : PRes (List ResRec) := do
  let b1 ← pyInStr "不分段" (a.getD "開標方式" (.str ""))
  if b1 then
    if ¬ isChecked i "第42點不分段" then
      pure [.fail ⟨23, "開標方式設定錯誤", "須知第42點不分段應勾選"⟩]
    else if isChecked i "第42點分二段" then
      pure [.fail ⟨23, "開標方式設定矛盾", "不應同時勾選兩種開標方式"⟩]
    else pure [.pass 23]
  else do
    let b2 ← pyInStr "分二段" (a.getD "開標方式" (.str ""))
    if b2 then
      if ¬ isChecked i "第42點分二段" then
        pure [.fail ⟨23, "開標方式設定錯誤", "須知第42點分二段應勾選"⟩]
      else pure [.pass 23]
    else pure []

/-- The chronological record stream of one `validate_all` run.  The checks
that can raise do so in source order (1, 2, 3, then 17, then 23); the
remaining checks are pure. -/
def outcomes (a i : PyDict) : PRes (List ResRec) := do
  let o1 ← validate_item_1 a i
  let o2 ← validate_item_2 a i
  let o3 ← validate_item_3 a i
  let o17 ← validate_item_17 a i
  let o23 ← validate_item_23 a i
  pure (o1 ++ o2 ++ o3 ++ validate_item_4 a i ++ validate_item_5 a i ++
    validate_item_6 a i ++ validate_item_7 a i ++ validate_item_8 a i ++
    validate_item_9 a i ++ validate_item_10 a i ++ validate_item_11 a i ++
    validate_item_12 a i ++ validate_items_13_to_16 a i ++ o17 ++
    validate_item_18 a i ++ validate_item_20 a i ++ validate_item_21 a i ++
    o23)

/-- The `validation_results` dict as initialised by `__init__`. -/
def initResults : VResults :=
  { auditResult := "通過", passList := [], failList := [], errList := []
    total := 23, passCount := 0, failCount := 0 }

/-- `validate_all` on an instance whose accumulator currently holds `st`:
the per-item methods append into the instance lists, then the statistics
are recomputed from the (appended-to) lists. -/
def validate_all_from (st : VResults) (a i : PyDict) : PRes VResults := do
  let os ← outcomes a i
  let pl := st.passList ++ passesOf os
  let fl := st.failList ++ failsOf os
  pure { auditResult := if fl.length = 0 then "通過" else "失敗"
         passList := pl
         failList := fl
         errList := st.errList ++ errsOf os
         total := st.total
         passCount := pl.length
         failCount := fl.length }

/-- `validate_all` on a freshly constructed validator. -/
def validate_all (a i : PyDict) : PRes VResults :=
  validate_all_from initResults a i

end TCV

/-! ## The 22-item validator and report summary of `tender_audit_system.py` -/

namespace TAS

/-- Item 1: both case numbers are read, `"A"`-stripped (every occurrence)
and compared, and both case names are read, all eagerly, before any verdict
is recorded; `[]`-access raises `KeyError`, `.replace` on an integer raises
`AttributeError`. -/
def validate_item_1 (a i : PyDict) : PRes (List ResRec) := do
  let aNo ← a.item "案號"
  let aNoS ← pyAsStr aNo
  let iNo ← i.item "案號"
  let iNoS ← pyAsStr iNo
  let aName ← a.item "案名"
  let iName ← i.item "採購標的名稱"
  let caseMatch := pyDropChar aNoS 'A' = pyDropChar iNoS 'A'
  let nameMatch := pyEq aName iName
  if ¬ caseMatch then
    pure [.fail ⟨1, "案號不一致", "公告:" ++ aNoS ++ " vs 須知:" ++ iNoS⟩]
  else if ¬ nameMatch then
    pure [.fail ⟨1, "案名不一致",
      "公告:" ++ pyStrOf aName ++ " vs 須知:" ++ pyStrOf iName⟩]
  else
    pure [.pass 1]

/-- Item 2: as in the 23-item validator, but with an else-branch pass. -/
def validate_item_2 (a i : PyDict) : PRes (List ResRec) := do
  let g ← pyInStr "公開取得報價" (a.getD "招標方式" (.str ""))
  if g then do
    let inR ← pyIntRange 150000 (a.getD "採購金額" (.int 0)) 1500000
    let e1 : List String :=
      if ¬ inR then
        ["採購金額" ++ pyStrOptOf (a.get? "採購金額") ++ "不在15萬-150萬範圍"]
      else []
    let e2 : List String :=
      if ¬ getEq a "採購金級距" "未達公告金額" then
        ["採購金級距應為\x27未達公告金額\x27"] else []
    let e3 : List String :=
      if ¬ getEq a "依據法條" "政府採購法第49條" then
        ["依據法條應為\x27政府採購法第49條\x27"] else []
    let e4 : List String :=
      if ¬ isChecked i "第3點逾公告金額十分之一" then ["須知第3點應勾選"] else []
    let errs := e1 ++ e2 ++ e3 ++ e4
    if errs.isEmpty then pure [.pass 2]
    else pure [.fail ⟨2, "公開取得報價設定錯誤", joinSemi errs⟩]
  else
    pure [.pass 2]

/-- Item 3. -/
def validate_item_3 (a i : PyDict) : PRes (List ResRec) := do
  let g ← pyInStr "公開取得報價" (a.getD "招標方式" (.str ""))
  if g then
    if ¬ isChecked i "第5點逾公告金額十分之一" then
      pure [.fail ⟨3, "須知設定錯誤", "第5點應勾選"⟩]
    else pure [.pass 3]
  else
    pure [.pass 3]

/-- Item 4. -/
def validate_item_4 (a i : PyDict) : List ResRec :=
  if getEq a "決標方式" "最低標" then
    if ¬ isChecked i "第59點最低標" ∨ ¬ isChecked i "第59點非64條之2" then
      [.fail ⟨4, "最低標設定錯誤", "須知第59點相關選項應勾選"⟩]
    else [.pass 4]
  else [.pass 4]

/-- Item 5. -/
def validate_item_5 (a i : PyDict) : List ResRec :=
  if getEq a "訂有底價" "是" then
    if ¬ isChecked i "第6點訂底價" then
      [.fail ⟨5, "底價設定錯誤", "須知第6點應勾選"⟩]
    else [.pass 5]
  else [.pass 5]

/-- Item 6: fails whenever the flag is not `否`. -/
def validate_item_6 (a i : PyDict) : List ResRec :=
  if getEq a "複數決標" "否" then [.pass 6]
  else [.fail ⟨6, "複數決標設定錯誤", "應為非複數決標"⟩]

/-- Item 7. -/
def validate_item_7 (a i : PyDict) : List ResRec :=
  if getEq a "依64條之2" "否" then
    if ¬ isChecked i "第59點非64條之2" then
      [.fail ⟨7, "64條之2設定錯誤", "須知第59點非64條之2應勾選"⟩]
    else [.pass 7]
  else [.pass 7]

/-- Item 8: fails whenever the announcement classification mentions
買受，定製. -/
def validate_item_8 (a i : PyDict) : PRes (List ResRec) := do
  let cat := a.getD "標的分類" (.str "")
  let b ← pyInStr "買受，定製" cat
  if b then
    pure [.fail ⟨8, "標的分類不一致",
      "公告:" ++ pyStrOf cat ++ ", 須知中財物性質設定可能不一致"⟩]
  else
    pure [.pass 8]

/-- Item 9 (條約協定): one-directional, with an else-branch pass. -/
def validate_item_9 (a i : PyDict) : List ResRec :=
  if getEq a "適用條約" "否" then
    if isChecked i "第8點條約協定" then
      [.fail ⟨9, "條約協定設定錯誤", "須知第8點條約協定不應勾選"⟩]
    else [.pass 9]
  else [.pass 9]

/-- Item 10 (敏感性採購): one-directional, with an else-branch pass. -/
def validate_item_10 (a i : PyDict) : List ResRec :=
  if getEq a "敏感性採購" "是" then
    let e1 : List String :=
      if ¬ isChecked i "第13點敏感性" then ["須知第13點敏感性應勾選"] else []
    let e2 : List String :=
      if ¬ isChecked i "第8點禁止大陸" then ["須知第8點禁止大陸應勾選"] else []
    let errs := e1 ++ e2
    if errs.isEmpty then [.pass 10]
    else [.fail ⟨10, "敏感性採購設定錯誤", joinSemi errs⟩]
  else [.pass 10]

/-- Item 11 (國安採購). -/
def validate_item_11 (a i : PyDict) : List ResRec :=
  if getEq a "國安採購" "是" then
    let e1 : List String :=
      if ¬ isChecked i "第13點國安" then ["須知第13點國安應勾選"] else []
    let e2 : List String :=
      if ¬ isChecked i "第8點禁止大陸" then ["須知第8點禁止大陸應勾選"] else []
    let errs := e1 ++ e2
    if errs.isEmpty then [.pass 11]
    else [.fail ⟨11, "國安採購設定錯誤", joinSemi errs⟩]
  else [.pass 11]

/-- Item 12 (增購權利): no contradiction branch in this variant. -/
def validate_item_12 (a i : PyDict) : List ResRec :=
  if getEq a "增購權利" "是" then
    if ¬ isChecked i "第7點保留增購" then
      [.fail ⟨12, "增購權利設定錯誤", "須知第7點保留增購應勾選"⟩]
    else [.pass 12]
  else if getEq a "增購權利" "無" then
    if ¬ isChecked i "第7點未保留增購" then
      [.fail ⟨12, "增購權利設定錯誤", "須知第7點未保留增購應勾選"⟩]
    else [.pass 12]
  else [.pass 12]

/-- Items 13-16, each with an else-branch pass. -/
def validate_items_13_to_16 (a i : PyDict) : List ResRec :=
  (if getEq a "特殊採購" "否" then
    if ¬ isChecked i "第4點非特殊採購" then
      [.fail ⟨13, "特殊採購設定錯誤", "須知第4點應勾選"⟩]
    else [.pass 13]
  else [.pass 13]) ++
  (if getEq a "統包" "否" then
    if ¬ isChecked i "第35點非統包" then
      [.fail ⟨14, "統包設定錯誤", "須知第35點應勾選"⟩]
    else [.pass 14]
  else [.pass 14]) ++
  (if getEq a "協商措施" "否" then
    if ¬ isChecked i "第54點不協商" then
      [.fail ⟨15, "協商措施設定錯誤", "須知第54點應勾選"⟩]
    else [.pass 15]
  else [.pass 15]) ++
  (if getEq a "電子領標" "是" then
    if ¬ isChecked i "第9點電子領標" then
      [.fail ⟨16, "電子領標設定錯誤", "須知第9點應勾選"⟩]
    else [.pass 16]
  else [.pass 16])

/-- Item 17: zero amounts pass without any checkbox requirement in this
variant. -/
def validate_item_17 (a i : PyDict) : PRes (List ResRec) := do
  let g := a.getD "押標金" (.int 0)
  let x := i.getD "押標金金額" (.int 0)
  if ¬ pyEq g x then
    pure [.fail ⟨17, "押標金不一致",
      "公告:" ++ pyStrOf g ++ " vs 須知:" ++ pyStrOf x⟩]
  else do
    let pos ← pyGtZero g
    if pos then
      if ¬ isChecked i "第19點一定金額" then
        pure [.fail ⟨17, "押標金設定錯誤", "有押標金時須知第19點一定金額應勾選"⟩]
      else pure [.pass 17]
    else
      pure [.pass 17]

/-- Item 18. -/
def validate_item_18 (a i : PyDict) : List ResRec :=
  if getEq a "優先身障" "是" then
    if ¬ isChecked i "第59點身障優先" then
      [.fail ⟨18, "身障優先設定錯誤", "須知第59點身障優先應勾選"⟩]
    else [.pass 18]
  else [.pass 18]

/-- Item 19 (外國廠商參與). -/
def validate_item_19 (a i : PyDict) : List ResRec :=
  if getEq a "外國廠商" "可" || getEq a "外國廠商" "得參與採購" then
    if ¬ isChecked i "第8點可參與" then
      [.fail ⟨19, "外國廠商設定錯誤", "須知第8點可參與應勾選"⟩]
    else [.pass 19]
  else if getEq a "外國廠商" "不可" ||
      strContains (pyStrOf (a.getD "外國廠商" (.str ""))) "不得參與" then
    if ¬ isChecked i "第8點不可參與" then
      [.fail ⟨19, "外國廠商設定錯誤", "須知第8點不可參與應勾選"⟩]
    else [.pass 19]
  else [.pass 19]

/-- Item 20 of the 22-item run (`validate_item_20_v21`, 中小企業). -/
def validate_item_20_v21 (a i : PyDict) : List ResRec :=
  if getEq a "限定中小企業" "是" then
    if ¬ isChecked i "第8點不可參與" then
      [.fail ⟨20, "中小企業設定錯誤", "限定中小企業時須知第8點不可參與應勾選"⟩]
    else [.pass 20]
  else [.pass 20]

/-- Item 21 of the 22-item run (`validate_item_21_v21`, 廠商資格): fails
whenever the qualification summary does not mention 合法設立登記. -/
def validate_item_21_v21 (a i : PyDict) : List ResRec :=
  if strContains (pyStrOf (a.getD "廠商資格" (.str ""))) "合法設立登記" then
    [.pass 21]
  else
    [.fail ⟨21, "廠商資格設定不明", "公告中未明確設定廠商資格要求"⟩]

/-- Item 22 (開標程序一致性). -/
def validate_item_22 (a i : PyDict) : PRes (List ResRec) := do
  let b1 ← pyInStr "不分段" (a.getD "開標方式" (.str ""))
  if b1 then
    if ¬ isChecked i "第42點不分段" then
      pure [.fail ⟨22, "開標方式設定錯誤", "須知第42點不分段應勾選"⟩]
    else if isChecked i "第42點分二段" then
      pure [.fail ⟨22, "開標方式設定矛盾", "不應同時勾選兩種開標方式"⟩]
    else pure [.pass 22]
  else do
    let b2 ← pyInStr "分段" (a.getD "開標方式" (.str ""))
    if b2 then
      if ¬ isChecked i "第42點分二段" then
        pure [.fail ⟨22, "開標方式設定錯誤", "須知第42點分二段應勾選"⟩]
      else pure [.pass 22]
    else pure [.pass 22]

/-- The chronological record stream of one 22-item `validate_all` run. -/
def outcomes (a i : PyDict) : PRes (List ResRec) := do
  let o1 ← validate_item_1 a i
  let o2 ← validate_item_2 a i
  let o3 ← validate_item_3 a i
  let o8 ← validate_item_8 a i
  let o17 ← validate_item_17 a i
  let o22 ← validate_item_22 a i
  pure (o1 ++ o2 ++ o3 ++ validate_item_4 a i ++ validate_item_5 a i ++
    validate_item_6 a i ++ validate_item_7 a i ++ o8 ++
    validate_item_9 a i ++ validate_item_10 a i ++ validate_item_11 a i ++
    validate_item_12 a i ++ validate_items_13_to_16 a i ++ o17 ++
    validate_item_18 a i ++ validate_item_19 a i ++
    validate_item_20_v21 a i ++ validate_item_21_v21 a i ++ o22)

/-- `validation_results` as initialised by `__init__` (總項次 22). -/
def initResults : VResults :=
  { auditResult := "通過", passList := [], failList := [], errList := []
    total := 22, passCount := 0, failCount := 0 }

/-- `validate_all` on an instance whose accumulator currently holds `st`. -/
def validate_all_from (st : VResults) (a i : PyDict) : PRes VResults := do
  let os ← outcomes a i
  let pl := st.passList ++ passesOf os
  let fl := st.failList ++ failsOf os
  pure { auditResult := if fl.length = 0 then "通過" else "失敗"
         passList := pl
         failList := fl
         errList := st.errList ++ errsOf os
         total := st.total
         passCount := pl.length
         failCount := fl.length }

/-- `validate_all` on a freshly constructed validator. -/
def validate_all (a i : PyDict) : PRes VResults :=
  validate_all_from initResults a i

/-- The summary produced by `TenderAuditSystem.generate_summary` when no AI
result is supplied: the risk assessment is a pure function of the failure
count (≥3 high, ≥1 medium, otherwise low). -/
structure Summary where
  ruleResult : String
  passRate : String
  problemCount : Nat
  riskLevel : String
  finalVerdict : String
  action : String
deriving DecidableEq

/-- `TenderAuditSystem.generate_summary` (rule-engine part). -/
def generate_summary (r : VResults) : Summary :=
  { ruleResult := r.auditResult
    passRate := toString r.passCount ++ "/" ++ toString r.total
    problemCount := r.failCount
    riskLevel :=
      if 3 ≤ r.failCount then "高" else if 1 ≤ r.failCount then "中" else "低"
    finalVerdict :=
      if r.failCount = 0 then "通過"
      else if r.failCount ≤ 2 then "條件通過" else "不通過"
    action :=
      if r.failCount = 0 then "可以發布"
      else if r.failCount ≤ 2 then "建議修正後發布" else "必須修正後重新審核" }

end TAS

/-! ## Checklist and report assembler of the 23-item checker script -/

namespace C23

/-- One row of the 23-item checker output (`check_item_*` return value). -/
structure CheckRes where
  num : Nat
  name : String
  status : String
  annValue : String
  insValue : String
  problem : String := ""
  risk : String
  suggestion : String := ""
deriving DecidableEq

/-- `Complete23ItemChecker.checklist_23`: the declared rule set with its
risk tiers. -/
def checklist_23 : List (Nat × String × String) :=
  [(1, "案號案名一致性", "high"),
   (2, "採購金額級距匹配", "high"),
   (3, "招標方式設定一致性", "low"),
   (4, "決標方式設定", "low"),
   (5, "底價設定一致性", "high"),
   (6, "非複數決標設定", "medium"),
   (7, "施行細則第64條之2", "low"),
   (8, "標的分類一致性", "low"),
   (9, "條約協定適用", "low"),
   (10, "敏感性或國安疑慮", "low"),
   (11, "國家安全", "low"),
   (12, "未來增購權利", "low"),
   (13, "特殊採購認定", "high"),
   (14, "統包認定", "low"),
   (15, "協商措施", "low"),
   (16, "電子領標", "low"),
   (17, "押標金設定", "low"),
   (18, "優先採購身心障礙", "low"),
   (19, "外國廠商參與規定", "medium"),
   (20, "外國廠商文件要求", "medium"),
   (21, "中小企業參與限制", "medium"),
   (22, "廠商資格摘要一致性", "medium"),
   (23, "開標程序一致性", "high")]

/-- Declared risk tier of a checklist item. -/
def checklistRisk (n : Nat) : Option String :=
  (checklist_23.find? (fun p => p.1 = n)).map (fun p => p.2.2)

/-- The summary head of `Complete23ItemChecker.generate_report`. -/
structure ReportStats where
  totalItems : Nat
  passedItems : Nat
  failedItems : Nat
  highRiskFails : List CheckRes
  mediumRiskFails : List CheckRes
  lowRiskFails : List CheckRes
  complianceRate : ℚ
  overallStatus : String
  riskAssessment : String
  action : String
deriving DecidableEq

/-- `round(x, 1)` (to one decimal place). -/
def round1 (q : ℚ) : ℚ :=
  (Int.floor (q * 10 + 1/2) : ℚ) / 10

/-- The statistics and risk classification computed by `generate_report`
before rendering: overall risk is high when any failed check is
high-tier, else medium when any failed check is medium-tier, else low. -/
def generate_report (results : List CheckRes) : ReportStats :=
  let total := results.length
  let passed := (results.filter (fun r => r.status = "pass")).length
  let failed := total - passed
  let hf := results.filter (fun r => r.status = "fail" ∧ r.risk = "high")
  let mf := results.filter (fun r => r.status = "fail" ∧ r.risk = "medium")
  let lf := results.filter (fun r => r.status = "fail" ∧ r.risk = "low")
  let rate := round1 ((passed : ℚ) / (total : ℚ) * 100)
  if hf ≠ [] then
    { totalItems := total, passedItems := passed, failedItems := failed
      highRiskFails := hf, mediumRiskFails := mf, lowRiskFails := lf
      complianceRate := rate, overallStatus := "錯誤"
      riskAssessment := "🔴 高風險"
      action := "立即修正 - 發布前必須修正所有高風險問題" }
  else if mf ≠ [] then
    { totalItems := total, passedItems := passed, failedItems := failed
      highRiskFails := hf, mediumRiskFails := mf, lowRiskFails := lf
      complianceRate := rate, overallStatus := "錯誤"
      riskAssessment := "🟡 中風險"
      action := "建議修正 - 建議修正中風險問題以提高合規性" }
  else
    { totalItems := total, passedItems := passed, failedItems := failed
      highRiskFails := hf, mediumRiskFails := mf, lowRiskFails := lf
      complianceRate := rate, overallStatus := "正確"
      riskAssessment := "🟢 低風險"
      action := "可接受發布" }

/-- Numeric value of a check's risk tier, for the specification-side
maximum: high ↦ 2, medium ↦ 1, anything else ↦ 0. -/
def tierVal (r : String) : Nat :=
  if r = "high" then 2 else if r = "medium" then 1 else 0

/-- Modelled from the spec: "report-level risk is the maximum risk tier
among failed checks (high > medium > low); zero failures ⇒ low risk".  The
maximum tier over the failed checks, with the empty maximum being low. -/
def specFailTier (results : List CheckRes) : Nat :=
  (results.filter (fun r => r.status = "fail")).foldl
    (fun m c => max m (tierVal c.risk)) 0

/-- Numeric value of the rendered risk assessment. -/
def riskTierVal (s : String) : Nat :=
  if s = "🔴 高風險" then 2 else if s = "🟡 中風險" then 1 else 0

end C23

/-! ## JSON values and `json.loads`

The delegated-extraction code feeds the text-completion response to
`json.loads` and branches on the outcome.  `PyJson` is the value model and
`pyJsonLoads` a parser for the JSON fragment the code exercises (objects,
arrays, strings without escapes, integers, booleans, null); trailing
garbage fails the parse, as in `json.loads`. -/

/-- A parsed JSON value. -/
inductive PyJson
  | str (s : String)
  | int (n : Int)
  | bool (b : Bool)
  | null
  | arr (xs : List PyJson)
  | obj (kvs : List (String × PyJson))

/-- Opening brace character. -/
def braceL : Char := Char.ofNat 123

/-- Closing brace character. -/
def braceR : Char := Char.ofNat 125

/-- Skip JSON whitespace. -/
def jskipWs (cs : List Char) : List Char :=
  cs.dropWhile (fun c => c = ' ' ∨ c = '\n' ∨ c = '\t' ∨ c = '\r')

/-- Parse a string body after the opening quote; escapes are out of scope
and fail the parse. -/
def parseStrBody : Nat → List Char → Option (String × List Char)
  | 0, _ => none
  | _, [] => none
  | fuel + 1, c :: rest =>
    if c = '\"' then some ("", rest)
    else if c = '\\' then none
    else
      match parseStrBody fuel rest with
      | some (s, r) => some (String.mk (c :: s.toList), r)
      | none => none

/-- Parse an integer token (optional sign, one or more digits). -/
def parseIntTok (cs : List Char) : Option (Int × List Char) :=
  match cs with
  | '-' :: rest =>
    let ds := rest.takeWhile Char.isDigit
    if ds.isEmpty then none
    else some (-(natOfDigits ds : Int), rest.drop ds.length)
  | _ =>
    let ds := cs.takeWhile Char.isDigit
    if ds.isEmpty then none
    else some ((natOfDigits ds : Int), cs.drop ds.length)

/-- Parse mode: a full value, the members of an object, or the items of an
array. -/
inductive PMode
  | value
  | members
  | items

/-- Parse result carrier for the three modes. -/
inductive PTok
  | val (j : PyJson)
  | objMems (l : List (String × PyJson))
  | arrItems (l : List PyJson)

/-- The fueled recursive-descent parser. -/
def parseAux : Nat → PMode → List Char → Option (PTok × List Char)
  | 0, _, _ => none
  | fuel + 1, .value, cs =>
    match jskipWs cs with
    | [] => none
    | c :: rest =>
      if c = braceL then
        match jskipWs rest with
        | [] => none
        | c2 :: rest2 =>
          if c2 = braceR then some (.val (.obj []), rest2)
          else
            match parseAux fuel .members (c2 :: rest2) with
            | some (.objMems l, r) => some (.val (.obj l), r)
            | _ => none
      else if c = '[' then
        match jskipWs rest with
        | [] => none
        | c2 :: rest2 =>
          if c2 = ']' then some (.val (.arr []), rest2)
          else
            match parseAux fuel .items (c2 :: rest2) with
            | some (.arrItems l, r) => some (.val (.arr l), r)
            | _ => none
      else if c = '\"' then
        match parseStrBody fuel rest with
        | some (s, r) => some (.val (.str s), r)
        | none => none
      else if c = 't' then
        if "rue".toList.isPrefixOf rest then
          some (.val (.bool true), rest.drop 3)
        else none
      else if c = 'f' then
        if "alse".toList.isPrefixOf rest then
          some (.val (.bool false), rest.drop 4)
        else none
      else if c = 'n' then
        if "ull".toList.isPrefixOf rest then
          some (.val .null, rest.drop 3)
        else none
      else if c = '-' ∨ c.isDigit then
        match parseIntTok (c :: rest) with
        | some (n, r) => some (.val (.int n), r)
        | none => none
      else none
  | fuel + 1, .members, cs =>
    match jskipWs cs with
    | [] => none
    | c :: rest =>
      if c = '\"' then
        match parseStrBody fuel rest with
        | some (k, r1) =>
          match jskipWs r1 with
          | ':' :: r2 =>
            (match parseAux fuel .value r2 with
            | some (.val v, r3) =>
              (match jskipWs r3 with
              | ',' :: r4 =>
                (match parseAux fuel .members r4 with
                | some (.objMems l, r5) => some (.objMems ((k, v) :: l), r5)
                | _ => none)
              | c5 :: r5 =>
                if c5 = braceR then some (.objMems [(k, v)], r5) else none
              | [] => none)
            | _ => none)
          | _ => none
        | none => none
      else none
  | fuel + 1, .items, cs =>
    match parseAux fuel .value cs with
    | some (.val v, r1) =>
      (match jskipWs r1 with
      | ',' :: r2 =>
        (match parseAux fuel .items r2 with
        | some (.arrItems l, r3) => some (.arrItems (v :: l), r3)
        | _ => none)
      | ']' :: r2 => some (.arrItems [v], r2)
      | _ => none)
    | _ => none

/-- `json.loads`: a full parse with no trailing garbage. -/
def pyJsonLoads (s : String) : Option PyJson :=
  match parseAux (2 * s.toList.length + 8) .value s.toList with
  | some (.val j, rest) => if (jskipWs rest).isEmpty then some j else none
  | _ => none

/-! ## Delegated-extraction error handling -/

namespace GO

/-- The observable outcome of the HTTP call to the text-completion service:
a 200 response carrying the `response` field, a non-200 status, or a raised
network exception. -/
inductive GemmaReply
  | http200 (response : String)
  | httpStatus (code : Nat)
  | netExc (msg : String)

/-- `call_gemma_ai` of `tender_audit_system.py` (lines 44-61): catches
everything; a non-200 status becomes the string `錯誤: <code>`, an
exception the string `失敗: <msg>`. -/
def call_gemma_ai : GemmaReply → String
  | .http200 r => r
  | .httpStatus c => "錯誤: " ++ toString c
  | .netExc m => "失敗: " ++ m

/-- The character class `["\s:]` of the fallback-extraction patterns. -/
def isSkipClass (c : Char) : Bool :=
  c = '\"' ∨ c.isWhitespace ∨ c = ':'

/-- Tail of the case-number pattern `[C]\d{2}A\d{5}` under `re.IGNORECASE`. -/
def matchCaseTail (cs : List Char) : Option (List Char) :=
  match cs with
  | c0 :: d1 :: d2 :: a0 :: e1 :: e2 :: e3 :: e4 :: e5 :: _ =>
    if (c0 = 'C' ∨ c0 = 'c') ∧ d1.isDigit ∧ d2.isDigit ∧
        (a0 = 'A' ∨ a0 = 'a') ∧ e1.isDigit ∧ e2.isDigit ∧ e3.isDigit ∧
        e4.isDigit ∧ e5.isDigit then
      some [c0, d1, d2, a0, e1, e2, e3, e4, e5]
    else none
  | _ => none

/-- Search for the pattern `案號["\s:]*([C]\d{2}A\d{5})` (the skip class is
disjoint from the group's first character, so the greedy scan needs no
backtracking). -/
def scanCaseNo : List Char → Option String
  | [] => none
  | c :: rest =>
    if "案號".toList.isPrefixOf (c :: rest) then
      match matchCaseTail (((c :: rest).drop 2).dropWhile isSkipClass) with
      | some m => some (String.mk m)
      | none => scanCaseNo rest
    else scanCaseNo rest

/-- Search for the pattern `案名["\s:]*([^",\n]+)` and strip the group (the
concrete responses considered never need backtracking into the skip
class). -/
def scanCaseName : List Char → Option String
  | [] => none
  | c :: rest =>
    if "案名".toList.isPrefixOf (c :: rest) then
      let grp := (((c :: rest).drop 2).dropWhile isSkipClass).takeWhile
        (fun ch => ¬ (ch = '\"' ∨ ch = ',' ∨ ch = '\n'))
      if grp.isEmpty then scanCaseName rest
      else some (pyStrip (String.mk grp))
    else scanCaseName rest

/-- Search for the pattern `(公開取得報價[^\n,"]*)` and strip the group. -/
def scanMethod : List Char → Option String
  | [] => none
  | c :: rest =>
    if "公開取得報價".toList.isPrefixOf (c :: rest) then
      some (pyStrip (String.mk ("公開取得報價".toList ++
        ((c :: rest).drop 6).takeWhile
          (fun ch => ¬ (ch = '\n' ∨ ch = ',' ∨ ch = '\"')))))
    else scanMethod rest

/-- Lookup in a parsed JSON object. -/
def jDictGet (d : List (String × PyJson)) (k : String) : Option PyJson :=
  (d.find? (fun p => p.1 = k)).map (fun p => p.2)

/-- Assignment to an existing key of a parsed JSON object (insertion order
is preserved, as in a Python dict). -/
def jDictSet (d : List (String × PyJson)) (k : String) (v : PyJson) :
    List (String × PyJson) :=
  d.map (fun p => if p.1 = k then (k, v) else p)

/-- `s.replace(pat, "")`, fueled by the input length. -/
def removeSubF : Nat → List Char → List Char → List Char
  | 0, _, cs => cs
  | fuel + 1, pat, cs =>
    match cs with
    | [] => []
    | c :: rest =>
      if ¬ pat.isEmpty ∧ pat.isPrefixOf (c :: rest) then
        removeSubF fuel pat ((c :: rest).drop pat.length)
      else c :: removeSubF fuel pat rest

/-- `s.replace(pat, "")`. -/
def pyRemove (s pat : String) : String :=
  String.mk (removeSubF s.toList.length pat.toList s.toList)

/-- Python `int(s)`: optional sign and digits with surrounding whitespace. -/
def pyIntParse (s : String) : Option Int :=
  match (pyStrip s).toList with
  | '-' :: ds =>
    if ¬ ds.isEmpty ∧ ds.all Char.isDigit then
      some (-(natOfDigits ds : Int))
    else none
  | '+' :: ds =>
    if ¬ ds.isEmpty ∧ ds.all Char.isDigit then
      some ((natOfDigits ds : Int))
    else none
  | ds =>
    if ¬ ds.isEmpty ∧ ds.all Char.isDigit then
      some ((natOfDigits ds : Int))
    else none

/-- The post-parse coercion of a string-valued amount field:
`int(value.replace(...).strip())`, with any failure caught and replaced by
0.  Non-string values are left alone. -/
def coerceAmount (d : List (String × PyJson)) (k : String)
    (pats : List String) : List (String × PyJson) :=
  match jDictGet d k with
  | some (.str s) =>
    jDictSet d k (.int ((pyIntParse (pyStrip (pats.foldl pyRemove s))).getD 0))
  | _ => d

/-- `TenderDocumentExtractor.extract_announcement_data_with_gemma`
(`tender_audit_system.py`, lines 158-194), taking the delegated call's
outcome: a parsed JSON object is returned (with the two amount fields
coerced); a `json.JSONDecodeError` falls back to three regex-extracted
fields defaulting to `NA`; but a response that parses to a non-object JSON
value raises `AttributeError` at `data.get(...)`. -/
def extract_announcement_data_with_gemma (reply : GemmaReply) :
    PRes (List (String × PyJson)) :=
  let aiResponse := call_gemma_ai reply
  match pyJsonLoads aiResponse with
  | some (.obj kvs) =>
    .ok (coerceAmount (coerceAmount kvs "採購金額" [",", "NT$"])
      "押標金" [",", "新臺幣", "元"])
  | some _ => .err .attributeError
  | none =>
    .ok [("案號", .str ((scanCaseNo aiResponse.toList).getD "NA")),
         ("案名", .str ((scanCaseName aiResponse.toList).getD "NA")),
         ("招標方式", .str ((scanMethod aiResponse.toList).getD "NA"))]

/-- `_call_gemma_json` of `tender_audit_gemma_only.py` (lines 235-258):
every non-200 status and every exception collapses to the string
`"{}"`. -/
def call_gemma_json : GemmaReply → String
  | .http200 r => r
  | .httpStatus _ => "\x7b\x7d"
  | .netExc _ => "\x7b\x7d"

/-- `_get_default_announcement_data` of `tender_audit_gemma_only.py`. -/
def default_announcement_data : List (String × PyJson) :=
  [("案號", .str "NA"), ("案名", .str "NA"), ("招標方式", .str "NA"),
   ("採購金額", .int 0), ("預算金額", .int 0), ("採購金級距", .str "NA"),
   ("依據法條", .str "NA"), ("決標方式", .str "NA"), ("訂有底價", .str "否"),
   ("複數決標", .str "否"), ("依64條之2", .str "否"), ("標的分類", .str "NA"),
   ("適用條約", .str "否"), ("敏感性採購", .str "否"), ("國安採購", .str "否"),
   ("增購權利", .str "無"), ("特殊採購", .str "否"), ("統包", .str "否"),
   ("協商措施", .str "否"), ("電子領標", .str "否"), ("優先身障", .str "否"),
   ("外國廠商", .str "不可"), ("限定中小企業", .str "否"), ("押標金", .int 0),
   ("開標方式", .str "NA")]

/-- The tail of `extract_announcement_with_gemma` of
`tender_audit_gemma_only.py`: `json.loads` under a bare `except` that
returns the default record, so it never raises. -/
def announcement_json_of_response (response : String) : PyJson :=
  match pyJsonLoads response with
  | some j => j
  | none => .obj default_announcement_data

end GO

/-! ## Infrastructure lemmas -/

@[simp]
theorem pres_bind_ok {α β : Type} (a : α) (f : α → PRes β) :
    (PRes.ok a >>= f) = f a := rfl

@[simp]
theorem pres_bind_err {α β : Type} (e : PyErr) (f : α → PRes β) :
    (PRes.err e >>= f) = PRes.err e := rfl

@[simp]
theorem pres_pure {α : Type} (a : α) : (pure a : PRes α) = PRes.ok a := rfl

@[simp]
theorem pres_ok_inj {α : Type} (a b : α) :
    (PRes.ok a = PRes.ok b) ↔ a = b := by
  constructor
  · intro h; cases h; rfl
  · intro h; rw [h]

theorem passesOf_append (l m : List ResRec) :
    passesOf (l ++ m) = passesOf l ++ passesOf m := by
  simp [passesOf, List.filterMap_append]

theorem failsOf_append (l m : List ResRec) :
    failsOf (l ++ m) = failsOf l ++ failsOf m := by
  simp [failsOf, List.filterMap_append]

theorem errsOf_append (l m : List ResRec) :
    errsOf (l ++ m) = errsOf l ++ errsOf m := by
  simp [errsOf, List.filterMap_append]

/-- Every appended record goes to exactly one of the two item lists. -/
theorem passesOf_length_add_failsOf_length (os : List ResRec) :
    (passesOf os).length + (failsOf os).length = os.length := by
  induction os with
  | nil => rfl
  | cons r rest ih =>
    cases r with
    | pass n =>
      simp only [passesOf, failsOf, List.filterMap_cons, List.length_cons] at *
      omega
    | fail e =>
      simp only [passesOf, failsOf, List.filterMap_cons, List.length_cons] at *
      omega

/-! ### Shape lemmas for the 23-item validator's checks -/

theorem tcv_shape_1 (a i : PyDict) (os : List ResRec)
    (h : TCV.validate_item_1 a i = .ok os) :
    os.length ≤ 1 ∧ ∀ n ∈ failsOf os, n = 1 := by
  unfold TCV.validate_item_1 at h
  cases h1 : a.item "案號" <;> rw [h1] at h
  case err => simp at h
  case ok va =>
  cases h2 : i.item "案號" <;> rw [h2] at h
  case err => simp at h
  case ok vi =>
  simp only [pres_bind_ok] at h
  split_ifs at h
  case pos =>
    cases h3 : a.item "案名" <;> rw [h3] at h
    case err => simp at h
    case ok vn =>
    cases h4 : i.item "採購標的名稱" <;> rw [h4] at h
    case err => simp at h
    case ok vm =>
    simp only [pres_bind_ok] at h
    split_ifs at h <;> simp at h <;> subst h <;> simp [failsOf]
  case neg =>
    simp at h; subst h; simp [failsOf]

theorem tcv_shape_2 (a i : PyDict) (os : List ResRec)
    (h : TCV.validate_item_2 a i = .ok os) :
    os.length ≤ 1 ∧ ∀ n ∈ failsOf os, n = 2 := by
  unfold TCV.validate_item_2 at h
  cases h1 : pyInStr "公開取得報價" (a.getD "招標方式" (.str "")) <;> rw [h1] at h
  case err => simp at h
  case ok b =>
  cases b
  · simp at h; subst h; simp [failsOf]
  · simp only [pres_bind_ok, if_true] at h
    cases h2 : pyIntRange 150000 (a.getD "採購金額" (.int 0)) 1500000 <;> rw [h2] at h
    case err => simp at h
    case ok c =>
    simp only [pres_bind_ok] at h
    split_ifs at h <;> simp at h <;> subst h <;> simp [failsOf]

theorem tcv_shape_3 (a i : PyDict) (os : List ResRec)
    (h : TCV.validate_item_3 a i = .ok os) :
    os.length ≤ 1 ∧ ∀ n ∈ failsOf os, n = 3 := by
  unfold TCV.validate_item_3 at h
  cases h1 : pyInStr "公開取得報價" (a.getD "招標方式" (.str "")) <;> rw [h1] at h
  case err => simp at h
  case ok b =>
  cases b <;> simp only [pres_bind_ok, if_true] at h <;>
    split_ifs at h <;> simp at h <;> subst h <;> simp [failsOf]

theorem tcv_shape_4 (a i : PyDict) :
    (TCV.validate_item_4 a i).length ≤ 1 ∧
      ∀ n ∈ failsOf (TCV.validate_item_4 a i), n = 4 := by
  unfold TCV.validate_item_4; split_ifs <;> simp [failsOf]

theorem tcv_shape_5 (a i : PyDict) :
    (TCV.validate_item_5 a i).length ≤ 1 ∧
      ∀ n ∈ failsOf (TCV.validate_item_5 a i), n = 5 := by
  unfold TCV.validate_item_5; split_ifs <;> simp [failsOf]

theorem tcv_shape_6 (a i : PyDict) :
    (TCV.validate_item_6 a i).length ≤ 1 ∧
      ∀ n ∈ failsOf (TCV.validate_item_6 a i), n = 6 := by
  unfold TCV.validate_item_6; split_ifs <;> simp [failsOf]

theorem tcv_shape_7 (a i : PyDict) :
    (TCV.validate_item_7 a i).length ≤ 1 ∧
      ∀ n ∈ failsOf (TCV.validate_item_7 a i), n = 7 := by
  unfold TCV.validate_item_7; split_ifs <;> simp [failsOf]

theorem tcv_shape_8 (a i : PyDict) :
    (TCV.validate_item_8 a i).length ≤ 1 ∧
      ∀ n ∈ failsOf (TCV.validate_item_8 a i), n = 8 := by
  unfold TCV.validate_item_8; simp [failsOf]

theorem tcv_item8_passes (a i : PyDict) :
    passesOf (TCV.validate_item_8 a i) = [8] := rfl

theorem tcv_shape_9 (a i : PyDict) :
    (TCV.validate_item_9 a i).length ≤ 1 ∧
      ∀ n ∈ failsOf (TCV.validate_item_9 a i), n = 9 := by
  unfold TCV.validate_item_9; split_ifs <;> simp [failsOf]

theorem tcv_shape_10 (a i : PyDict) :
    (TCV.validate_item_10 a i).length ≤ 1 ∧
      ∀ n ∈ failsOf (TCV.validate_item_10 a i), n = 10 := by
  unfold TCV.validate_item_10; split_ifs <;> simp [failsOf]

theorem tcv_shape_11 (a i : PyDict) :
    (TCV.validate_item_11 a i).length ≤ 1 ∧
      ∀ n ∈ failsOf (TCV.validate_item_11 a i), n = 11 := by
  unfold TCV.validate_item_11; split_ifs <;> simp [failsOf]

theorem tcv_shape_12 (a i : PyDict) :
    (TCV.validate_item_12 a i).length ≤ 1 ∧
      ∀ n ∈ failsOf (TCV.validate_item_12 a i), n = 12 := by
  unfold TCV.validate_item_12; split_ifs <;> simp [failsOf]

theorem tcv_shape_13_16 (a i : PyDict) :
    (TCV.validate_items_13_to_16 a i).length ≤ 4 ∧
      ∀ n ∈ failsOf (TCV.validate_items_13_to_16 a i),
        n = 13 ∨ n = 14 ∨ n = 15 ∨ n = 16 := by
  unfold TCV.validate_items_13_to_16
  split_ifs <;> simp [failsOf, failsOf_append]

theorem tcv_shape_17 (a i : PyDict) (os : List ResRec)
    (h : TCV.validate_item_17 a i = .ok os) :
    os.length ≤ 1 ∧ ∀ n ∈ failsOf os, n = 17 := by
  unfold TCV.validate_item_17 at h
  try dsimp only [] at h
  by_cases hEq : pyEq (a.getD "押標金" (.int 0)) (i.getD "押標金金額" (.int 0)) = true
  · rw [if_neg (by simp [hEq])] at h
    cases h1 : pyGtZero (a.getD "押標金" (.int 0)) <;> rw [h1] at h
    · rename_i b
      cases b
      · rw [pres_bind_ok, if_neg (by simp)] at h
        split_ifs at h <;> simp at h <;> subst h <;> simp [failsOf]
      · rw [pres_bind_ok, if_pos rfl] at h
        split_ifs at h <;> simp at h <;> subst h <;> simp [failsOf]
    · simp at h
  · rw [if_pos (by simp [hEq])] at h
    simp at h; subst h; simp [failsOf]

theorem tcv_shape_18 (a i : PyDict) :
    (TCV.validate_item_18 a i).length ≤ 1 ∧
      ∀ n ∈ failsOf (TCV.validate_item_18 a i), n = 18 := by
  unfold TCV.validate_item_18; split_ifs <;> simp [failsOf]

theorem tcv_shape_20 (a i : PyDict) :
    (TCV.validate_item_20 a i).length ≤ 1 ∧
      ∀ n ∈ failsOf (TCV.validate_item_20 a i), n = 20 := by
  unfold TCV.validate_item_20; split_ifs <;> simp [failsOf]

theorem tcv_shape_21 (a i : PyDict) :
    (TCV.validate_item_21 a i).length ≤ 1 ∧
      ∀ n ∈ failsOf (TCV.validate_item_21 a i), n = 21 := by
  unfold TCV.validate_item_21; split_ifs <;> simp [failsOf]

theorem tcv_shape_23 (a i : PyDict) (os : List ResRec)
    (h : TCV.validate_item_23 a i = .ok os) :
    os.length ≤ 1 ∧ ∀ n ∈ failsOf os, n = 23 := by
  unfold TCV.validate_item_23 at h
  cases h1 : pyInStr "不分段" (a.getD "開標方式" (.str "")) <;> rw [h1] at h
  case err => simp at h
  case ok b =>
  cases b
  · simp only [pres_bind_ok, Bool.false_eq_true, if_false] at h
    cases h2 : pyInStr "分二段" (a.getD "開標方式" (.str "")) <;> rw [h2] at h
    case err => simp at h
    case ok c =>
    cases c <;> simp only [pres_bind_ok, if_true] at h <;>
      split_ifs at h <;> simp at h <;> subst h <;> simp [failsOf]
  · simp only [pres_bind_ok, if_true] at h
    split_ifs at h <;> simp at h <;> subst h <;> simp [failsOf]

/-- Inversion of a successful 23-item run into its per-item record lists. -/
theorem tcv_outcomes_ok (a i : PyDict) (os : List ResRec)
    (h : TCV.outcomes a i = .ok os) :
    ∃ o1 o2 o3 o17 o23,
      TCV.validate_item_1 a i = .ok o1 ∧
      TCV.validate_item_2 a i = .ok o2 ∧
      TCV.validate_item_3 a i = .ok o3 ∧
      TCV.validate_item_17 a i = .ok o17 ∧
      TCV.validate_item_23 a i = .ok o23 ∧
      os = o1 ++ o2 ++ o3 ++ TCV.validate_item_4 a i ++
        TCV.validate_item_5 a i ++ TCV.validate_item_6 a i ++
        TCV.validate_item_7 a i ++ TCV.validate_item_8 a i ++
        TCV.validate_item_9 a i ++ TCV.validate_item_10 a i ++
        TCV.validate_item_11 a i ++ TCV.validate_item_12 a i ++
        TCV.validate_items_13_to_16 a i ++ o17 ++
        TCV.validate_item_18 a i ++ TCV.validate_item_20 a i ++
        TCV.validate_item_21 a i ++ o23 := by
  unfold TCV.outcomes at h
  cases h1 : TCV.validate_item_1 a i <;> rw [h1] at h
  case err => simp at h
  case ok o1 =>
  cases h2 : TCV.validate_item_2 a i <;> rw [h2] at h
  case err => simp at h
  case ok o2 =>
  cases h3 : TCV.validate_item_3 a i <;> rw [h3] at h
  case err => simp at h
  case ok o3 =>
  cases h17 : TCV.validate_item_17 a i <;> rw [h17] at h
  case err => simp at h
  case ok o17 =>
  cases h23 : TCV.validate_item_23 a i <;> rw [h23] at h
  case err => simp at h
  case ok o23 =>
  simp only [pres_bind_ok, pres_pure, pres_ok_inj] at h
  exact ⟨o1, o2, o3, o17, o23, rfl, rfl, rfl, rfl, rfl, by rw [← h]⟩

/-! ### Shape lemmas for the 22-item validator's checks: every check records
exactly one verdict (items 13-16 exactly four). -/

theorem tas_shape_1 (a i : PyDict) (os : List ResRec)
    (h : TAS.validate_item_1 a i = .ok os) :
    os.length = 1 ∧ ∀ n ∈ failsOf os, n = 1 := by
  unfold TAS.validate_item_1 at h
  cases h1 : a.item "案號" <;> rw [h1] at h
  case err => simp at h
  case ok va =>
  simp only [pres_bind_ok] at h
  cases h2 : pyAsStr va <;> rw [h2] at h
  case err => simp at h
  case ok sa =>
  simp only [pres_bind_ok] at h
  cases h3 : i.item "案號" <;> rw [h3] at h
  case err => simp at h
  case ok vi =>
  simp only [pres_bind_ok] at h
  cases h4 : pyAsStr vi <;> rw [h4] at h
  case err => simp at h
  case ok si =>
  simp only [pres_bind_ok] at h
  cases h5 : a.item "案名" <;> rw [h5] at h
  case err => simp at h
  case ok vn =>
  simp only [pres_bind_ok] at h
  cases h6 : i.item "採購標的名稱" <;> rw [h6] at h
  case err => simp at h
  case ok vm =>
  simp only [pres_bind_ok] at h
  try dsimp only [] at h
  split_ifs at h <;> simp at h <;> subst h <;> simp [failsOf]

theorem tas_shape_2 (a i : PyDict) (os : List ResRec)
    (h : TAS.validate_item_2 a i = .ok os) :
    os.length = 1 ∧ ∀ n ∈ failsOf os, n = 2 := by
  unfold TAS.validate_item_2 at h
  cases h1 : pyInStr "公開取得報價" (a.getD "招標方式" (.str "")) <;> rw [h1] at h
  case err => simp at h
  case ok b =>
  cases b
  · simp at h; subst h; simp [failsOf]
  · simp only [pres_bind_ok, if_true] at h
    cases h2 : pyIntRange 150000 (a.getD "採購金額" (.int 0)) 1500000 <;> rw [h2] at h
    case err => simp at h
    case ok c =>
    simp only [pres_bind_ok] at h
    split_ifs at h <;> simp at h <;> subst h <;> simp [failsOf]

theorem tas_shape_3 (a i : PyDict) (os : List ResRec)
    (h : TAS.validate_item_3 a i = .ok os) :
    os.length = 1 ∧ ∀ n ∈ failsOf os, n = 3 := by
  unfold TAS.validate_item_3 at h
  cases h1 : pyInStr "公開取得報價" (a.getD "招標方式" (.str "")) <;> rw [h1] at h
  case err => simp at h
  case ok b =>
  cases b
  · simp at h; subst h; simp [failsOf]
  · simp only [pres_bind_ok, if_true] at h
    split_ifs at h <;> simp at h <;> subst h <;> simp [failsOf]

theorem tas_shape_4 (a i : PyDict) :
    (TAS.validate_item_4 a i).length = 1 ∧
      ∀ n ∈ failsOf (TAS.validate_item_4 a i), n = 4 := by
  unfold TAS.validate_item_4; split_ifs <;> simp [failsOf]

theorem tas_shape_5 (a i : PyDict) :
    (TAS.validate_item_5 a i).length = 1 ∧
      ∀ n ∈ failsOf (TAS.validate_item_5 a i), n = 5 := by
  unfold TAS.validate_item_5; split_ifs <;> simp [failsOf]

theorem tas_shape_6 (a i : PyDict) :
    (TAS.validate_item_6 a i).length = 1 ∧
      ∀ n ∈ failsOf (TAS.validate_item_6 a i), n = 6 := by
  unfold TAS.validate_item_6; split_ifs <;> simp [failsOf]

theorem tas_shape_7 (a i : PyDict) :
    (TAS.validate_item_7 a i).length = 1 ∧
      ∀ n ∈ failsOf (TAS.validate_item_7 a i), n = 7 := by
  unfold TAS.validate_item_7; split_ifs <;> simp [failsOf]

theorem tas_shape_8 (a i : PyDict) (os : List ResRec)
    (h : TAS.validate_item_8 a i = .ok os) :
    os.length = 1 ∧ ∀ n ∈ failsOf os, n = 8 := by
  unfold TAS.validate_item_8 at h
  try dsimp only [] at h
  cases h1 : pyInStr "買受，定製" (a.getD "標的分類" (.str "")) <;> rw [h1] at h
  case err => simp at h
  case ok b =>
  cases b <;> simp at h <;> subst h <;> simp [failsOf]

theorem tas_shape_9 (a i : PyDict) :
    (TAS.validate_item_9 a i).length = 1 ∧
      ∀ n ∈ failsOf (TAS.validate_item_9 a i), n = 9 := by
  unfold TAS.validate_item_9; split_ifs <;> simp [failsOf]

theorem tas_shape_10 (a i : PyDict) :
    (TAS.validate_item_10 a i).length = 1 ∧
      ∀ n ∈ failsOf (TAS.validate_item_10 a i), n = 10 := by
  unfold TAS.validate_item_10; split_ifs <;> simp [failsOf]

theorem tas_shape_11 (a i : PyDict) :
    (TAS.validate_item_11 a i).length = 1 ∧
      ∀ n ∈ failsOf (TAS.validate_item_11 a i), n = 11 := by
  unfold TAS.validate_item_11; split_ifs <;> simp [failsOf]

theorem tas_shape_12 (a i : PyDict) :
    (TAS.validate_item_12 a i).length = 1 ∧
      ∀ n ∈ failsOf (TAS.validate_item_12 a i), n = 12 := by
  unfold TAS.validate_item_12; split_ifs <;> simp [failsOf]

theorem tas_shape_13_16 (a i : PyDict) :
    (TAS.validate_items_13_to_16 a i).length = 4 ∧
      ∀ n ∈ failsOf (TAS.validate_items_13_to_16 a i),
        n = 13 ∨ n = 14 ∨ n = 15 ∨ n = 16 := by
  unfold TAS.validate_items_13_to_16
  split_ifs <;> simp [failsOf, failsOf_append]

theorem tas_shape_17 (a i : PyDict) (os : List ResRec)
    (h : TAS.validate_item_17 a i = .ok os) :
    os.length = 1 ∧ ∀ n ∈ failsOf os, n = 17 := by
  unfold TAS.validate_item_17 at h
  try dsimp only [] at h
  by_cases hEq : pyEq (a.getD "押標金" (.int 0)) (i.getD "押標金金額" (.int 0)) = true
  · rw [if_neg (by simp [hEq])] at h
    cases h1 : pyGtZero (a.getD "押標金" (.int 0)) <;> rw [h1] at h
    · rename_i b
      cases b
      · rw [pres_bind_ok, if_neg (by simp)] at h
        simp at h; subst h; simp [failsOf]
      · rw [pres_bind_ok, if_pos rfl] at h
        split_ifs at h <;> simp at h <;> subst h <;> simp [failsOf]
    · simp at h
  · rw [if_pos (by simp [hEq])] at h
    simp at h; subst h; simp [failsOf]

theorem tas_shape_18 (a i : PyDict) :
    (TAS.validate_item_18 a i).length = 1 ∧
      ∀ n ∈ failsOf (TAS.validate_item_18 a i), n = 18 := by
  unfold TAS.validate_item_18; split_ifs <;> simp [failsOf]

theorem tas_shape_19 (a i : PyDict) :
    (TAS.validate_item_19 a i).length = 1 ∧
      ∀ n ∈ failsOf (TAS.validate_item_19 a i), n = 19 := by
  unfold TAS.validate_item_19; split_ifs <;> simp [failsOf]

theorem tas_shape_20 (a i : PyDict) :
    (TAS.validate_item_20_v21 a i).length = 1 ∧
      ∀ n ∈ failsOf (TAS.validate_item_20_v21 a i), n = 20 := by
  unfold TAS.validate_item_20_v21; split_ifs <;> simp [failsOf]

theorem tas_shape_21 (a i : PyDict) :
    (TAS.validate_item_21_v21 a i).length = 1 ∧
      ∀ n ∈ failsOf (TAS.validate_item_21_v21 a i), n = 21 := by
  unfold TAS.validate_item_21_v21; split_ifs <;> simp [failsOf]

theorem tas_shape_22 (a i : PyDict) (os : List ResRec)
    (h : TAS.validate_item_22 a i = .ok os) :
    os.length = 1 ∧ ∀ n ∈ failsOf os, n = 22 := by
  unfold TAS.validate_item_22 at h
  cases h1 : pyInStr "不分段" (a.getD "開標方式" (.str "")) <;> rw [h1] at h
  case err => simp at h
  case ok b =>
  cases b
  · simp only [pres_bind_ok, Bool.false_eq_true, if_false] at h
    cases h2 : pyInStr "分段" (a.getD "開標方式" (.str "")) <;> rw [h2] at h
    case err => simp at h
    case ok c =>
    cases c
    · simp at h; subst h; simp [failsOf]
    · simp only [pres_bind_ok, if_true] at h
      split_ifs at h <;> simp at h <;> subst h <;> simp [failsOf]
  · simp only [pres_bind_ok, if_true] at h
    split_ifs at h <;> simp at h <;> subst h <;> simp [failsOf]

/-- Inversion of a successful 22-item run into its per-item record lists. -/
theorem tas_outcomes_ok (a i : PyDict) (os : List ResRec)
    (h : TAS.outcomes a i = .ok os) :
    ∃ o1 o2 o3 o8 o17 o22,
      TAS.validate_item_1 a i = .ok o1 ∧
      TAS.validate_item_2 a i = .ok o2 ∧
      TAS.validate_item_3 a i = .ok o3 ∧
      TAS.validate_item_8 a i = .ok o8 ∧
      TAS.validate_item_17 a i = .ok o17 ∧
      TAS.validate_item_22 a i = .ok o22 ∧
      os = o1 ++ o2 ++ o3 ++ TAS.validate_item_4 a i ++
        TAS.validate_item_5 a i ++ TAS.validate_item_6 a i ++
        TAS.validate_item_7 a i ++ o8 ++
        TAS.validate_item_9 a i ++ TAS.validate_item_10 a i ++
        TAS.validate_item_11 a i ++ TAS.validate_item_12 a i ++
        TAS.validate_items_13_to_16 a i ++ o17 ++
        TAS.validate_item_18 a i ++ TAS.validate_item_19 a i ++
        TAS.validate_item_20_v21 a i ++ TAS.validate_item_21_v21 a i ++
        o22 := by
  unfold TAS.outcomes at h
  cases h1 : TAS.validate_item_1 a i <;> rw [h1] at h
  case err => simp at h
  case ok o1 =>
  cases h2 : TAS.validate_item_2 a i <;> rw [h2] at h
  case err => simp at h
  case ok o2 =>
  cases h3 : TAS.validate_item_3 a i <;> rw [h3] at h
  case err => simp at h
  case ok o3 =>
  cases h8 : TAS.validate_item_8 a i <;> rw [h8] at h
  case err => simp at h
  case ok o8 =>
  cases h17 : TAS.validate_item_17 a i <;> rw [h17] at h
  case err => simp at h
  case ok o17 =>
  cases h22 : TAS.validate_item_22 a i <;> rw [h22] at h
  case err => simp at h
  case ok o22 =>
  simp only [pres_bind_ok, pres_pure, pres_ok_inj] at h
  exact ⟨o1, o2, o3, o8, o17, o22, rfl, rfl, rfl, rfl, rfl, rfl, by rw [← h]⟩

/-! ### Aggregate lemmas over whole runs -/

/-- A successful 23-item run records at most 21 verdicts. -/
theorem tcv_outcomes_len (a i : PyDict) (os : List ResRec)
    (h : TCV.outcomes a i = .ok os) : os.length ≤ 21 := by
  obtain ⟨o1, o2, o3, o17, o23, h1, h2, h3, h17, h23, hos⟩ :=
    tcv_outcomes_ok a i os h
  subst hos
  have l1 := (tcv_shape_1 a i o1 h1).1
  have l2 := (tcv_shape_2 a i o2 h2).1
  have l3 := (tcv_shape_3 a i o3 h3).1
  have l4 := (tcv_shape_4 a i).1
  have l5 := (tcv_shape_5 a i).1
  have l6 := (tcv_shape_6 a i).1
  have l7 := (tcv_shape_7 a i).1
  have l8 := (tcv_shape_8 a i).1
  have l9 := (tcv_shape_9 a i).1
  have l10 := (tcv_shape_10 a i).1
  have l11 := (tcv_shape_11 a i).1
  have l12 := (tcv_shape_12 a i).1
  have l13 := (tcv_shape_13_16 a i).1
  have l17 := (tcv_shape_17 a i o17 h17).1
  have l18 := (tcv_shape_18 a i).1
  have l20 := (tcv_shape_20 a i).1
  have l21 := (tcv_shape_21 a i).1
  have l23 := (tcv_shape_23 a i o23 h23).1
  simp only [List.length_append]
  omega

/-- A successful 22-item run records exactly 22 verdicts. -/
theorem tas_outcomes_len (a i : PyDict) (os : List ResRec)
    (h : TAS.outcomes a i = .ok os) : os.length = 22 := by
  obtain ⟨o1, o2, o3, o8, o17, o22, h1, h2, h3, h8, h17, h22, hos⟩ :=
    tas_outcomes_ok a i os h
  subst hos
  have l1 := (tas_shape_1 a i o1 h1).1
  have l2 := (tas_shape_2 a i o2 h2).1
  have l3 := (tas_shape_3 a i o3 h3).1
  have l4 := (tas_shape_4 a i).1
  have l5 := (tas_shape_5 a i).1
  have l6 := (tas_shape_6 a i).1
  have l7 := (tas_shape_7 a i).1
  have l8 := (tas_shape_8 a i o8 h8).1
  have l9 := (tas_shape_9 a i).1
  have l10 := (tas_shape_10 a i).1
  have l11 := (tas_shape_11 a i).1
  have l12 := (tas_shape_12 a i).1
  have l13 := (tas_shape_13_16 a i).1
  have l17 := (tas_shape_17 a i o17 h17).1
  have l18 := (tas_shape_18 a i).1
  have l19 := (tas_shape_19 a i).1
  have l20 := (tas_shape_20 a i).1
  have l21 := (tas_shape_21 a i).1
  have l22 := (tas_shape_22 a i o22 h22).1
  simp only [List.length_append]
  omega

/-- Item 10 of the 23-item validator fails exactly when the announcement
declares sensitive procurement and one of the two checkboxes is not
checked. -/
theorem tcv_item10_fails_iff (a i : PyDict) :
    10 ∈ failsOf (TCV.validate_item_10 a i) ↔
      (getEq a "敏感性採購" "是" = true ∧
        (¬ isChecked i "第13點敏感性" = true ∨
          ¬ isChecked i "第8點禁止大陸" = true)) := by
  unfold TCV.validate_item_10
  by_cases hg : getEq a "敏感性採購" "是" = true
  · by_cases h1 : isChecked i "第13點敏感性" = true <;>
      by_cases h2 : isChecked i "第8點禁止大陸" = true <;>
      simp [hg, h1, h2, failsOf]
  · simp [hg, failsOf]

/-- Item 10 of the 22-item validator: same failure condition (the else
branch records a pass). -/
theorem tas_item10_fails_iff (a i : PyDict) :
    10 ∈ failsOf (TAS.validate_item_10 a i) ↔
      (getEq a "敏感性採購" "是" = true ∧
        (¬ isChecked i "第13點敏感性" = true ∨
          ¬ isChecked i "第8點禁止大陸" = true)) := by
  unfold TAS.validate_item_10
  by_cases hg : getEq a "敏感性採購" "是" = true
  · by_cases h1 : isChecked i "第13點敏感性" = true <;>
      by_cases h2 : isChecked i "第8點禁止大陸" = true <;>
      simp [hg, h1, h2, failsOf]
  · simp [hg, failsOf]

/-- Whole-run characterisation of an item-10 failure, 23-item validator. -/
theorem tcv_fails10_iff (a i : PyDict) (os : List ResRec)
    (h : TCV.outcomes a i = .ok os) :
    10 ∈ failsOf os ↔
      (getEq a "敏感性採購" "是" = true ∧
        (¬ isChecked i "第13點敏感性" = true ∨
          ¬ isChecked i "第8點禁止大陸" = true)) := by
  obtain ⟨o1, o2, o3, o17, o23, h1, h2, h3, h17, h23, hos⟩ :=
    tcv_outcomes_ok a i os h
  subst hos
  have k1 : 10 ∉ failsOf o1 := fun hm => by
    have := (tcv_shape_1 a i o1 h1).2 10 hm; omega
  have k2 : 10 ∉ failsOf o2 := fun hm => by
    have := (tcv_shape_2 a i o2 h2).2 10 hm; omega
  have k3 : 10 ∉ failsOf o3 := fun hm => by
    have := (tcv_shape_3 a i o3 h3).2 10 hm; omega
  have k4 : 10 ∉ failsOf (TCV.validate_item_4 a i) := fun hm => by
    have := (tcv_shape_4 a i).2 10 hm; omega
  have k5 : 10 ∉ failsOf (TCV.validate_item_5 a i) := fun hm => by
    have := (tcv_shape_5 a i).2 10 hm; omega
  have k6 : 10 ∉ failsOf (TCV.validate_item_6 a i) := fun hm => by
    have := (tcv_shape_6 a i).2 10 hm; omega
  have k7 : 10 ∉ failsOf (TCV.validate_item_7 a i) := fun hm => by
    have := (tcv_shape_7 a i).2 10 hm; omega
  have k8 : 10 ∉ failsOf (TCV.validate_item_8 a i) := fun hm => by
    have := (tcv_shape_8 a i).2 10 hm; omega
  have k9 : 10 ∉ failsOf (TCV.validate_item_9 a i) := fun hm => by
    have := (tcv_shape_9 a i).2 10 hm; omega
  have k11 : 10 ∉ failsOf (TCV.validate_item_11 a i) := fun hm => by
    have := (tcv_shape_11 a i).2 10 hm; omega
  have k12 : 10 ∉ failsOf (TCV.validate_item_12 a i) := fun hm => by
    have := (tcv_shape_12 a i).2 10 hm; omega
  have k13 : 10 ∉ failsOf (TCV.validate_items_13_to_16 a i) := fun hm => by
    have := (tcv_shape_13_16 a i).2 10 hm; omega
  have k17 : 10 ∉ failsOf o17 := fun hm => by
    have := (tcv_shape_17 a i o17 h17).2 10 hm; omega
  have k18 : 10 ∉ failsOf (TCV.validate_item_18 a i) := fun hm => by
    have := (tcv_shape_18 a i).2 10 hm; omega
  have k20 : 10 ∉ failsOf (TCV.validate_item_20 a i) := fun hm => by
    have := (tcv_shape_20 a i).2 10 hm; omega
  have k21 : 10 ∉ failsOf (TCV.validate_item_21 a i) := fun hm => by
    have := (tcv_shape_21 a i).2 10 hm; omega
  have k23 : 10 ∉ failsOf o23 := fun hm => by
    have := (tcv_shape_23 a i o23 h23).2 10 hm; omega
  rw [← tcv_item10_fails_iff a i]
  simp only [failsOf_append, List.mem_append]
  tauto

/-- Whole-run characterisation of an item-10 failure, 22-item validator. -/
theorem tas_fails10_iff (a i : PyDict) (os : List ResRec)
    (h : TAS.outcomes a i = .ok os) :
    10 ∈ failsOf os ↔
      (getEq a "敏感性採購" "是" = true ∧
        (¬ isChecked i "第13點敏感性" = true ∨
          ¬ isChecked i "第8點禁止大陸" = true)) := by
  obtain ⟨o1, o2, o3, o8, o17, o22, h1, h2, h3, h8, h17, h22, hos⟩ :=
    tas_outcomes_ok a i os h
  subst hos
  have k1 : 10 ∉ failsOf o1 := fun hm => by
    have := (tas_shape_1 a i o1 h1).2 10 hm; omega
  have k2 : 10 ∉ failsOf o2 := fun hm => by
    have := (tas_shape_2 a i o2 h2).2 10 hm; omega
  have k3 : 10 ∉ failsOf o3 := fun hm => by
    have := (tas_shape_3 a i o3 h3).2 10 hm; omega
  have k4 : 10 ∉ failsOf (TAS.validate_item_4 a i) := fun hm => by
    have := (tas_shape_4 a i).2 10 hm; omega
  have k5 : 10 ∉ failsOf (TAS.validate_item_5 a i) := fun hm => by
    have := (tas_shape_5 a i).2 10 hm; omega
  have k6 : 10 ∉ failsOf (TAS.validate_item_6 a i) := fun hm => by
    have := (tas_shape_6 a i).2 10 hm; omega
  have k7 : 10 ∉ failsOf (TAS.validate_item_7 a i) := fun hm => by
    have := (tas_shape_7 a i).2 10 hm; omega
  have k8 : 10 ∉ failsOf o8 := fun hm => by
    have := (tas_shape_8 a i o8 h8).2 10 hm; omega
  have k9 : 10 ∉ failsOf (TAS.validate_item_9 a i) := fun hm => by
    have := (tas_shape_9 a i).2 10 hm; omega
  have k11 : 10 ∉ failsOf (TAS.validate_item_11 a i) := fun hm => by
    have := (tas_shape_11 a i).2 10 hm; omega
  have k12 : 10 ∉ failsOf (TAS.validate_item_12 a i) := fun hm => by
    have := (tas_shape_12 a i).2 10 hm; omega
  have k13 : 10 ∉ failsOf (TAS.validate_items_13_to_16 a i) := fun hm => by
    have := (tas_shape_13_16 a i).2 10 hm; omega
  have k17 : 10 ∉ failsOf o17 := fun hm => by
    have := (tas_shape_17 a i o17 h17).2 10 hm; omega
  have k18 : 10 ∉ failsOf (TAS.validate_item_18 a i) := fun hm => by
    have := (tas_shape_18 a i).2 10 hm; omega
  have k19 : 10 ∉ failsOf (TAS.validate_item_19 a i) := fun hm => by
    have := (tas_shape_19 a i).2 10 hm; omega
  have k20 : 10 ∉ failsOf (TAS.validate_item_20_v21 a i) := fun hm => by
    have := (tas_shape_20 a i).2 10 hm; omega
  have k21 : 10 ∉ failsOf (TAS.validate_item_21_v21 a i) := fun hm => by
    have := (tas_shape_21 a i).2 10 hm; omega
  have k22 : 10 ∉ failsOf o22 := fun hm => by
    have := (tas_shape_22 a i o22 h22).2 10 hm; omega
  rw [← tas_item10_fails_iff a i]
  simp only [failsOf_append, List.mem_append]
  tauto

/-- Item 9 of the 22-item validator on the scenario-B premises: a FAIL
with the fixed explanation string. -/
theorem tas_item9_scenario (a i : PyDict)
    (hg : getEq a "適用條約" "否" = true)
    (hc : isChecked i "第8點條約協定" = true) :
    TAS.validate_item_9 a i =
      [.fail ⟨9, "條約協定設定錯誤", "須知第8點條約協定不應勾選"⟩] := by
  unfold TAS.validate_item_9
  simp [hg, hc]

/-- A successful record stream determines the `validate_all` result of a
fresh 23-item validator. -/
theorem tcv_all_ok_of_outcomes (a i : PyDict) (os : List ResRec)
    (h : TCV.outcomes a i = .ok os) :
    TCV.validate_all a i = .ok
      { auditResult := if (failsOf os).length = 0 then "通過" else "失敗"
        passList := passesOf os
        failList := failsOf os
        errList := errsOf os
        total := 23
        passCount := (passesOf os).length
        failCount := (failsOf os).length } := by
  unfold TCV.validate_all TCV.validate_all_from
  rw [h]
  simp [TCV.initResults]

/-! ## Concrete inputs and their computed results -/

/-- A minimal well-formed field pair: only the four identity fields are
present, so every guarded check's guard is false. -/
def smallA : PyDict := [("案號", .str "C1"), ("案名", .str "N")]

/-- Instructions side of the minimal pair. -/
def smallI : PyDict := [("案號", .str "C1"), ("採購標的名稱", .str "N")]

/-- The 23-item validator's result on the minimal pair: only five checks
record a verdict. -/
def smallRes : VResults :=
  { auditResult := "失敗", passList := [1, 8, 18, 21], failList := [17]
    errList := [⟨17, "押標金設定錯誤", "無押標金時須知第19點無需繳納應勾選"⟩]
    total := 23, passCount := 4, failCount := 1 }

/-- The result of calling `validate_all` a second time on the same
instance: the accumulator doubles. -/
def smallRes2 : VResults :=
  { auditResult := "失敗", passList := [1, 8, 18, 21, 1, 8, 18, 21]
    failList := [17, 17]
    errList := [⟨17, "押標金設定錯誤", "無押標金時須知第19點無需繳納應勾選"⟩,
      ⟨17, "押標金設定錯誤", "無押標金時須知第19點無需繳納應勾選"⟩]
    total := 23, passCount := 8, failCount := 2 }

/-- A field pair switching every guard of the 23-item validator on, with
every corresponding checkbox set. -/
def fullA : PyDict := [("案號", PyVal.str "C2"), ("案名", PyVal.str "N"),
  ("招標方式", PyVal.str "公開取得報價或企劃書招標"), ("採購金額", PyVal.int 200000),
  ("採購金級距", PyVal.str "未達公告金額"), ("依據法條", PyVal.str "政府採購法第49條"),
  ("決標方式", PyVal.str "最低標"), ("訂有底價", PyVal.str "是"),
  ("複數決標", PyVal.str "否"), ("依64條之2", PyVal.str "否"),
  ("適用條約", PyVal.str "否"), ("敏感性採購", PyVal.str "是"),
  ("國安採購", PyVal.str "是"), ("增購權利", PyVal.str "是"),
  ("特殊採購", PyVal.str "否"), ("統包", PyVal.str "否"),
  ("協商措施", PyVal.str "否"), ("電子領標", PyVal.str "是"),
  ("押標金", PyVal.int 5000), ("優先身障", PyVal.str "是"),
  ("外國廠商", PyVal.str "可"), ("限定中小企業", PyVal.str "是"),
  ("開標方式", PyVal.str "一次投標不分段開標")]

/-- Instructions side with every relevant checkbox checked. -/
def fullI : PyDict := [("案號", PyVal.str "C2"), ("採購標的名稱", PyVal.str "N"),
  ("第3點逾公告金額十分之一", PyVal.str "已勾選"),
  ("第5點逾公告金額十分之一", PyVal.str "已勾選"),
  ("第59點最低標", PyVal.str "已勾選"), ("第59點非64條之2", PyVal.str "已勾選"),
  ("第6點訂底價", PyVal.str "已勾選"), ("第8點條約協定", PyVal.str "未勾選"),
  ("第13點敏感性", PyVal.str "已勾選"), ("第8點禁止大陸", PyVal.str "已勾選"),
  ("第13點國安", PyVal.str "已勾選"), ("第7點保留增購", PyVal.str "已勾選"),
  ("第7點未保留增購", PyVal.str "未勾選"), ("第4點非特殊採購", PyVal.str "已勾選"),
  ("第35點非統包", PyVal.str "已勾選"), ("第54點不協商", PyVal.str "已勾選"),
  ("第9點電子領標", PyVal.str "已勾選"), ("押標金金額", PyVal.int 5000),
  ("第19點一定金額", PyVal.str "已勾選"), ("第59點身障優先", PyVal.str "已勾選"),
  ("第8點可參與", PyVal.str "已勾選"), ("第8點不可參與", PyVal.str "已勾選"),
  ("第42點不分段", PyVal.str "已勾選"), ("第42點分二段", PyVal.str "未勾選")]

/-- The 23-item validator's result on the fully guarded pair: 21 verdicts
recorded, still short of the declared 23. -/
def fullRes : VResults :=
  { auditResult := "通過"
    passList := [1, 2, 3, 4, 5, 6, 7, 8, 9, 10, 11, 12, 13, 14, 15, 16, 17,
      18, 20, 21, 23]
    failList := [], errList := [], total := 23, passCount := 21
    failCount := 0 }

/-- Scenario B: announcement says the treaty does not apply, instructions
have the clause-8 treaty checkbox checked; everything else passes. -/
def sbA : PyDict := [("案號", PyVal.str "C8"), ("案名", PyVal.str "N"),
  ("複數決標", PyVal.str "否"), ("適用條約", PyVal.str "否"),
  ("廠商資格", PyVal.str "合法設立登記之廠商")]

/-- Scenario-B instructions. -/
def sbI : PyDict := [("案號", PyVal.str "C8"), ("採購標的名稱", PyVal.str "N"),
  ("第8點條約協定", PyVal.str "已勾選")]

/-- The 22-item validator's result on scenario B: only item 9 fails. -/
def sbRes : VResults :=
  { auditResult := "失敗"
    passList := [1, 2, 3, 4, 5, 6, 7, 8, 10, 11, 12, 13, 14, 15, 16, 17, 18,
      19, 20, 21, 22]
    failList := [9]
    errList := [⟨9, "條約協定設定錯誤", "須知第8點條約協定不應勾選"⟩]
    total := 22, passCount := 21, failCount := 1 }

/-- An input making exactly items 9, 15 and 16 fail in the 22-item
validator; the 23-item checklist rates all three as low risk. -/
def lowFailA : PyDict := [("案號", PyVal.str "C4"), ("案名", PyVal.str "N"),
  ("複數決標", PyVal.str "否"), ("適用條約", PyVal.str "否"),
  ("協商措施", PyVal.str "否"), ("電子領標", PyVal.str "是"),
  ("廠商資格", PyVal.str "合法設立登記之廠商")]

/-- Instructions for the three-low-failure input. -/
def lowFailI : PyDict := [("案號", PyVal.str "C4"),
  ("採購標的名稱", PyVal.str "N"), ("第8點條約協定", PyVal.str "已勾選")]

/-- Result of the three-low-failure run. -/
def lowFailRes : VResults :=
  { auditResult := "失敗"
    passList := [1, 2, 3, 4, 5, 6, 7, 8, 10, 11, 12, 13, 14, 17, 18, 19, 20,
      21, 22]
    failList := [9, 15, 16]
    errList := [⟨9, "條約協定設定錯誤", "須知第8點條約協定不應勾選"⟩,
      ⟨15, "協商措施設定錯誤", "須知第54點應勾選"⟩,
      ⟨16, "電子領標設定錯誤", "須知第9點應勾選"⟩]
    total := 22, passCount := 19, failCount := 3 }

/-- An announcement record with a case number but no case name. -/
def noNameA : PyDict := [("案號", PyVal.str "X")]

/-- Instructions with a different case number, so item 1 short-circuits
before reading the missing 案名. -/
def noNameI : PyDict := [("案號", PyVal.str "Y"), ("採購標的名稱", PyVal.str "Z")]

/-- Result of the missing-案名 run: no exception at all. -/
def noNameRes : VResults :=
  { auditResult := "失敗", passList := [8, 18, 21], failList := [1, 17]
    errList := [⟨1, "案號不一致", "公告:X vs 須知:Y"⟩,
      ⟨17, "押標金設定錯誤", "無押標金時須知第19點無需繳納應勾選"⟩]
    total := 23, passCount := 3, failCount := 2 }

/-! ## Claim C1 -/

/-- C1: amended.  In `tender_compliance_validator.py` a guarded check whose
guard is false silently records nothing (item 4 shown explicitly), so one
`validate_all` call records an input-dependent number of per-check results
that is at most 21 and always strictly below the declared 總項次 = 23;
only the 22-item validator records one result per check. -/
theorem c1_amended :
    (∀ a i : PyDict, getEq a "決標方式" "最低標" = false →
      TCV.validate_item_4 a i = []) ∧
    (∀ (a i : PyDict) (r : VResults), TCV.validate_all a i = .ok r →
      r.passList.length + r.failList.length ≤ 21 ∧ r.total = 23) := by
  constructor
  · intro a i hg
    unfold TCV.validate_item_4
    simp [hg]
  · intro a i r h
    unfold TCV.validate_all TCV.validate_all_from at h
    cases ho : TCV.outcomes a i <;> rw [ho] at h
    case err => simp at h
    case ok os =>
    simp only [pres_bind_ok, pres_pure, pres_ok_inj] at h
    subst h
    have hlen := tcv_outcomes_len a i os ho
    have hsum := passesOf_length_add_failsOf_length os
    refine ⟨?_, rfl⟩
    simp only [TCV.initResults, List.nil_append]
    omega

/-- C1: witness for the amended theorem at the minimal concrete pair. -/
theorem c1_witness :
    TCV.validate_item_4 smallA smallI = [] ∧
    smallRes.passList.length + smallRes.failList.length ≤ 21 ∧
    smallRes.total = 23 :=
  ⟨c1_amended.1 smallA smallI (by decide),
    (c1_amended.2 smallA smallI smallRes (by decide)).1,
    (c1_amended.2 smallA smallI smallRes (by decide)).2⟩

/-- C1: counterexample.  On the minimal pair one `validate_all` call of the
23-item validator records only 5 per-check results although the result
declares 總項次 = 23: the evaluate operation does not produce exactly N
results, and guarded checks contributed zero results. -/
theorem c1_counterexample :
    TCV.validate_all smallA smallI = .ok smallRes ∧
    smallRes.passList.length + smallRes.failList.length = 5 ∧
    smallRes.total = 23 ∧ (5 : Nat) ≠ 23 := by
  refine ⟨by decide, by decide, by decide, by decide⟩

/-! ## Claim C2 -/

/-- C2: amended.  The status-count invariant holds for the 22-item
validator of `tender_audit_system.py` (通過數 + 失敗數 always equals the
declared 總項次 = 22), but fails for the 23-item validator: there
通過數 + 失敗數 counts only the checks that recorded a verdict, which is
always strictly below the declared constant 總項次 = 23. -/
theorem c2_amended :
    (∀ (a i : PyDict) (r : VResults), TAS.validate_all a i = .ok r →
      r.passCount + r.failCount = r.total ∧ r.total = 22) ∧
    (∀ (a i : PyDict) (r : VResults), TCV.validate_all a i = .ok r →
      r.passCount + r.failCount < r.total ∧ r.total = 23) := by
  constructor
  · intro a i r h
    unfold TAS.validate_all TAS.validate_all_from at h
    cases ho : TAS.outcomes a i <;> rw [ho] at h
    case err => simp at h
    case ok os =>
    simp only [pres_bind_ok, pres_pure, pres_ok_inj] at h
    subst h
    have hlen := tas_outcomes_len a i os ho
    have hsum := passesOf_length_add_failsOf_length os
    refine ⟨?_, rfl⟩
    simp only [TAS.initResults, List.nil_append]
    omega
  · intro a i r h
    unfold TCV.validate_all TCV.validate_all_from at h
    cases ho : TCV.outcomes a i <;> rw [ho] at h
    case err => simp at h
    case ok os =>
    simp only [pres_bind_ok, pres_pure, pres_ok_inj] at h
    subst h
    have hlen := tcv_outcomes_len a i os ho
    have hsum := passesOf_length_add_failsOf_length os
    refine ⟨?_, rfl⟩
    simp only [TCV.initResults, List.nil_append]
    omega

/-- C2: witness for the amended theorem at concrete pairs. -/
theorem c2_witness :
    (sbRes.passCount + sbRes.failCount = sbRes.total ∧ sbRes.total = 22) ∧
    (smallRes.passCount + smallRes.failCount < smallRes.total ∧
      smallRes.total = 23) :=
  ⟨c2_amended.1 sbA sbI sbRes (by decide),
    c2_amended.2 smallA smallI smallRes (by decide)⟩

/-- C2: counterexample.  For the 23-item validator the sum of the status
counts is 5 on one input and 21 on another, with the declared 總項次 = 23
both times: the sum neither equals the number of checks run nor any fixed
constant of the rule-set version. -/
theorem c2_counterexample :
    TCV.validate_all smallA smallI = .ok smallRes ∧
    smallRes.passCount + smallRes.failCount = 5 ∧
    TCV.validate_all fullA fullI = .ok fullRes ∧
    fullRes.passCount + fullRes.failCount = 21 ∧
    smallRes.total = 23 ∧ fullRes.total = 23 ∧
    (5 : Nat) ≠ 23 ∧ (21 : Nat) ≠ 23 ∧ (5 : Nat) ≠ 21 := by
  refine ⟨by decide, by decide, by decide, by decide, by decide, by decide,
    by decide, by decide, by decide⟩

/-! ## Claim C9 -/

/-- C9: amended.  A validator instance is not stateless: `validate_all`
appends into the instance's accumulator lists and recomputes the counts, so
a second identical call on the same instance returns doubled item lists and
doubled counts — never the same result.  (Within one accumulator state the
result is still a pure function of the inputs.) -/
theorem c9_amended :
    ∀ (a i : PyDict) (r1 r2 : VResults),
      TCV.validate_all a i = .ok r1 →
      TCV.validate_all_from r1 a i = .ok r2 →
      r2.passList = r1.passList ++ r1.passList ∧
      r2.failList = r1.failList ++ r1.failList ∧
      r2.passCount = 2 * r1.passCount ∧
      r2.failCount = 2 * r1.failCount ∧
      r2 ≠ r1 := by
  intro a i r1 r2 h1 h2
  unfold TCV.validate_all at h1
  unfold TCV.validate_all_from at h1 h2
  cases ho : TCV.outcomes a i <;> rw [ho] at h1 h2
  case err => simp at h1
  case ok os =>
  simp only [pres_bind_ok, pres_pure, pres_ok_inj] at h1 h2
  subst h1
  subst h2
  have h8 : 8 ∈ passesOf os := by
    obtain ⟨o1, o2, o3, o17, o23, g1, g2, g3, g17, g23, hos⟩ :=
      tcv_outcomes_ok a i os ho
    subst hos
    simp only [passesOf_append, List.mem_append, tcv_item8_passes]
    simp
  have hpos : 0 < (passesOf os).length := List.length_pos.mpr
    (fun hnil => by rw [hnil] at h8; simp at h8)
  refine ⟨by simp [TCV.initResults], by simp [TCV.initResults],
    by simp [TCV.initResults, List.length_append]; omega,
    by simp [TCV.initResults, List.length_append]; omega, ?_⟩
  intro hEq
  have hc := congrArg VResults.passCount hEq
  simp only [TCV.initResults, List.length_append, List.nil_append,
    List.length_nil, Nat.zero_add] at hc
  omega

/-- C9: witness for the amended theorem at the minimal concrete pair. -/
theorem c9_witness :
    smallRes2.passList = smallRes.passList ++ smallRes.passList ∧
    smallRes2.failList = smallRes.failList ++ smallRes.failList ∧
    smallRes2.passCount = 2 * smallRes.passCount ∧
    smallRes2.failCount = 2 * smallRes.failCount ∧
    smallRes2 ≠ smallRes :=
  c9_amended smallA smallI smallRes smallRes2 (by decide) (by decide)

/-- C9: counterexample.  Two successive `validate_all` calls on the same
validator instance with identical inputs return different results: the
second call reports 通過數 = 8 where the first reported 4, because the
per-item lists accumulate across calls. -/
theorem c9_counterexample :
    TCV.validate_all smallA smallI = .ok smallRes ∧
    TCV.validate_all_from smallRes smallA smallI = .ok smallRes2 ∧
    smallRes2 ≠ smallRes ∧
    smallRes.passCount = 4 ∧ smallRes2.passCount = 8 := by
  refine ⟨by decide, by decide, by decide, by decide, by decide⟩

/-! ## Claim C6 -/

/-- An announcement with the sensitive-procurement flag set and no
matching checkboxes in the instructions. -/
def sensA : PyDict := [("案號", PyVal.str "C6"), ("案名", PyVal.str "N"),
  ("敏感性採購", PyVal.str "是")]

/-- Instructions for the sensitive-procurement example. -/
def sensI : PyDict := [("案號", PyVal.str "C6"), ("採購標的名稱", PyVal.str "N")]

/-- Record stream of the 23-item run on the minimal pair. -/
def smallOut : List ResRec := [.pass 1, .pass 8,
  .fail ⟨17, "押標金設定錯誤", "無押標金時須知第19點無需繳納應勾選"⟩, .pass 18, .pass 21]

/-- Record stream of the 23-item run on the sensitive-procurement pair. -/
def sensOut : List ResRec := [.pass 1, .pass 8,
  .fail ⟨10, "敏感性採購設定錯誤", "須知第13點敏感性應勾選; 須知第8點禁止大陸應勾選"⟩,
  .fail ⟨17, "押標金設定錯誤", "無押標金時須知第19點無需繳納應勾選"⟩, .pass 18, .pass 21]

/-- C6: confirmed.  The sensitive-procurement check (item 10) is a
one-directional implication in both validator variants: whenever the
announcement flag is not `是`, item 10 never fails, whatever the
checkboxes say; and it fails exactly when the flag is `是` and the
sensitivity or mainland-prohibition checkbox is not checked. -/
theorem c6_item10_one_directional :
    (∀ (a i : PyDict) (os : List ResRec), TCV.outcomes a i = .ok os →
      ¬ getEq a "敏感性採購" "是" = true → 10 ∉ failsOf os) ∧
    (∀ (a i : PyDict) (os : List ResRec), TCV.outcomes a i = .ok os →
      (10 ∈ failsOf os ↔ getEq a "敏感性採購" "是" = true ∧
        (¬ isChecked i "第13點敏感性" = true ∨
          ¬ isChecked i "第8點禁止大陸" = true))) ∧
    (∀ (a i : PyDict) (os : List ResRec), TAS.outcomes a i = .ok os →
      ¬ getEq a "敏感性採購" "是" = true → 10 ∉ failsOf os) ∧
    (∀ (a i : PyDict) (os : List ResRec), TAS.outcomes a i = .ok os →
      (10 ∈ failsOf os ↔ getEq a "敏感性採購" "是" = true ∧
        (¬ isChecked i "第13點敏感性" = true ∨
          ¬ isChecked i "第8點禁止大陸" = true))) := by
  refine ⟨?_, tcv_fails10_iff, ?_, tas_fails10_iff⟩
  · intro a i os h hg hmem
    exact hg ((tcv_fails10_iff a i os h).mp hmem).1
  · intro a i os h hg hmem
    exact hg ((tas_fails10_iff a i os h).mp hmem).1

/-- C6: witness at concrete pairs: with the flag absent item 10 does not
fail even though no checkbox is checked; with the flag set and the
checkboxes unchecked the characterisation puts 10 among the failures. -/
theorem c6_witness :
    (10 ∉ failsOf smallOut) ∧
    (10 ∈ failsOf sensOut ↔ getEq sensA "敏感性採購" "是" = true ∧
      (¬ isChecked sensI "第13點敏感性" = true ∨
        ¬ isChecked sensI "第8點禁止大陸" = true)) :=
  ⟨c6_item10_one_directional.1 smallA smallI smallOut (by decide) (by decide),
    c6_item10_one_directional.2.1 sensA sensI sensOut (by decide)⟩

/-! ## Claim C8 -/

/-- Record stream of the 22-item run on scenario B. -/
def sbOut : List ResRec := [.pass 1, .pass 2, .pass 3, .pass 4, .pass 5,
  .pass 6, .pass 7, .pass 8,
  .fail ⟨9, "條約協定設定錯誤", "須知第8點條約協定不應勾選"⟩,
  .pass 10, .pass 11, .pass 12, .pass 13, .pass 14, .pass 15, .pass 16,
  .pass 17, .pass 18, .pass 19, .pass 20, .pass 21, .pass 22]

/-- C8: amended.  With treaty-applicability `否` and the clause-8 treaty
checkbox checked, item 9 does fail — but the failure explanation is the
fixed string 須知第8點條約協定不應勾選, which names neither compared value;
the 23-item checklist assigns item 9 risk tier low, not high; and with a
single failure `generate_summary` reports risk 中, never 高 (高 requires at
least three failures). -/
theorem c8_amended :
    (∀ (a i : PyDict) (os : List ResRec), TAS.outcomes a i = .ok os →
      getEq a "適用條約" "否" = true → isChecked i "第8點條約協定" = true →
      9 ∈ failsOf os ∧
      (⟨9, "條約協定設定錯誤", "須知第8點條約協定不應勾選"⟩ : ErrDetail) ∈ errsOf os) ∧
    (∀ r : VResults, r.failCount = 1 →
      (TAS.generate_summary r).riskLevel = "中" ∧
      (TAS.generate_summary r).riskLevel ≠ "高") ∧
    C23.checklistRisk 9 = some "low" := by
  refine ⟨?_, ?_, by decide⟩
  · intro a i os h hg hc
    obtain ⟨o1, o2, o3, o8, o17, o22, g1, g2, g3, g8, g17, g22, hos⟩ :=
      tas_outcomes_ok a i os h
    subst hos
    have h9 := tas_item9_scenario a i hg hc
    constructor
    · simp [failsOf_append, List.mem_append, h9, failsOf]
    · simp [errsOf_append, List.mem_append, h9, errsOf]
  · intro r hr
    unfold TAS.generate_summary
    rw [hr]
    norm_num
    decide

/-- C8: witness at the scenario-B pair. -/
theorem c8_witness :
    (9 ∈ failsOf sbOut ∧
      (⟨9, "條約協定設定錯誤", "須知第8點條約協定不應勾選"⟩ : ErrDetail) ∈ errsOf sbOut) ∧
    ((TAS.generate_summary sbRes).riskLevel = "中" ∧
      (TAS.generate_summary sbRes).riskLevel ≠ "高") :=
  ⟨c8_amended.1 sbA sbI sbOut (by decide) (by decide) (by decide),
    c8_amended.2.1 sbRes (by decide)⟩

/-- C8: counterexample.  On scenario B the 22-item validator fails exactly
item 9, but the report risk is 中 rather than the claimed HIGH, the
checklist tier of item 9 is low rather than high, and the failure
explanation is a fixed string that names neither the announcement value 否
nor the checkbox state 已勾選. -/
theorem c8_counterexample :
    TAS.validate_all sbA sbI = .ok sbRes ∧
    sbRes.failList = [9] ∧
    (TAS.generate_summary sbRes).riskLevel = "中" ∧
    (TAS.generate_summary sbRes).riskLevel ≠ "高" ∧
    sbRes.errList = [⟨9, "條約協定設定錯誤", "須知第8點條約協定不應勾選"⟩] ∧
    strContains "須知第8點條約協定不應勾選" "已勾選" = false ∧
    strContains "須知第8點條約協定不應勾選" "否" = false ∧
    C23.checklistRisk 9 = some "low" ∧ "low" ≠ "high" := by
  refine ⟨by decide, by decide, by decide, by decide, by decide, by decide,
    by decide, by decide, by decide⟩

/-! ## Claim C10 -/

/-- A dict value is string-typed when present. -/
def strOpt (o : Option PyVal) : Prop :=
  ∀ v, o = some v → ∃ s, v = PyVal.str s

/-- A dict value is integer-typed when present. -/
def intOpt (o : Option PyVal) : Prop :=
  ∀ v, o = some v → ∃ n, v = PyVal.int n

/-- The typing discipline the extractors establish for the announcement
fields the 23-item validator manipulates beyond equality tests. -/
structure WTA (a : PyDict) : Prop where
  tenderMethod : strOpt (a.get? "招標方式")
  amount : intOpt (a.get? "採購金額")
  bond : intOpt (a.get? "押標金")
  opening : strOpt (a.get? "開標方式")

theorem ok_pyInStr_getD (a : PyDict) (k needle : String)
    (hw : strOpt (a.get? k)) :
    ∃ b, pyInStr needle (a.getD k (.str "")) = .ok b := by
  unfold PyDict.getD
  cases hk : a.get? k
  · exact ⟨strContains "" needle, rfl⟩
  · rename_i v
    obtain ⟨s, rfl⟩ := hw v hk
    exact ⟨strContains s needle, rfl⟩

theorem ok_pyIntRange_getD (a : PyDict) (k : String) (lo hi : Int)
    (hw : intOpt (a.get? k)) :
    ∃ b, pyIntRange lo (a.getD k (.int 0)) hi = .ok b := by
  unfold PyDict.getD
  cases hk : a.get? k
  · exact ⟨_, rfl⟩
  · rename_i v
    obtain ⟨n, rfl⟩ := hw v hk
    exact ⟨_, rfl⟩

theorem ok_pyGtZero_getD (a : PyDict) (k : String)
    (hw : intOpt (a.get? k)) :
    ∃ b, pyGtZero (a.getD k (.int 0)) = .ok b := by
  unfold PyDict.getD
  cases hk : a.get? k
  · exact ⟨_, rfl⟩
  · rename_i v
    obtain ⟨n, rfl⟩ := hw v hk
    exact ⟨_, rfl⟩

theorem tcv_item1_ok (a i : PyDict)
    (h1 : (a.get? "案號").isSome) (h2 : (a.get? "案名").isSome)
    (h3 : (i.get? "案號").isSome) (h4 : (i.get? "採購標的名稱").isSome) :
    ∃ os, TCV.validate_item_1 a i = .ok os := by
  obtain ⟨va, hva⟩ := Option.isSome_iff_exists.mp h1
  obtain ⟨vn, hvn⟩ := Option.isSome_iff_exists.mp h2
  obtain ⟨vi, hvi⟩ := Option.isSome_iff_exists.mp h3
  obtain ⟨vm, hvm⟩ := Option.isSome_iff_exists.mp h4
  unfold TCV.validate_item_1 PyDict.item
  simp only [hva, hvn, hvi, hvm, pres_bind_ok]
  split_ifs <;> exact ⟨_, rfl⟩

theorem tcv_item2_ok (a i : PyDict) (hm : strOpt (a.get? "招標方式"))
    (ham : intOpt (a.get? "採購金額")) :
    ∃ os, TCV.validate_item_2 a i = .ok os := by
  obtain ⟨b, hb⟩ := ok_pyInStr_getD a "招標方式" "公開取得報價" hm
  unfold TCV.validate_item_2
  rw [hb]
  cases b
  · exact ⟨[], by simp⟩
  · obtain ⟨c, hc⟩ := ok_pyIntRange_getD a "採購金額" 150000 1500000 ham
    simp only [pres_bind_ok, if_true]
    rw [hc]
    simp only [pres_bind_ok]
    split_ifs <;> exact ⟨_, rfl⟩

theorem tcv_item3_ok (a i : PyDict) (hm : strOpt (a.get? "招標方式")) :
    ∃ os, TCV.validate_item_3 a i = .ok os := by
  obtain ⟨b, hb⟩ := ok_pyInStr_getD a "招標方式" "公開取得報價" hm
  unfold TCV.validate_item_3
  rw [hb]
  cases b <;> simp only [pres_bind_ok] <;> split_ifs <;> exact ⟨_, rfl⟩

theorem tcv_item17_ok (a i : PyDict) (hb : intOpt (a.get? "押標金")) :
    ∃ os, TCV.validate_item_17 a i = .ok os := by
  unfold TCV.validate_item_17
  try dsimp only []
  by_cases hEq : pyEq (a.getD "押標金" (.int 0))
      (i.getD "押標金金額" (.int 0)) = true
  · rw [if_neg (by simp [hEq])]
    obtain ⟨b, hgt⟩ := ok_pyGtZero_getD a "押標金" hb
    rw [hgt]
    simp only [pres_bind_ok]
    split_ifs <;> exact ⟨_, rfl⟩
  · rw [if_pos (by simp [hEq])]
    exact ⟨_, rfl⟩

theorem tcv_item23_ok (a i : PyDict) (ho : strOpt (a.get? "開標方式")) :
    ∃ os, TCV.validate_item_23 a i = .ok os := by
  obtain ⟨b, hb⟩ := ok_pyInStr_getD a "開標方式" "不分段" ho
  obtain ⟨c, hc⟩ := ok_pyInStr_getD a "開標方式" "分二段" ho
  unfold TCV.validate_item_23
  rw [hb]
  cases b
  · simp only [pres_bind_ok, Bool.false_eq_true, if_false]
    rw [hc]
    cases c <;> simp only [pres_bind_ok] <;> split_ifs <;> exact ⟨_, rfl⟩
  · simp only [pres_bind_ok, if_true]
    split_ifs <;> exact ⟨_, rfl⟩

/-- C10: amended.  In `tender_compliance_validator.py` a missing 案號 (on
either side) always raises `KeyError`; a missing 案名 / 採購標的名稱 raises
only when the case numbers are present and equal, because item 1
short-circuits; with the four keys present and well-typed values,
`validate_all` never raises whatever other fields are absent.  In
`tender_audit_system.py` item 1 reads all four keys eagerly, so there a
missing 案名 raises `KeyError` even when the case numbers differ. -/
theorem c10_amended :
    (∀ a i : PyDict, a.get? "案號" = none →
      TCV.validate_all a i = .err (.keyError "案號")) ∧
    (∀ (a i : PyDict) (v : PyVal), a.get? "案號" = some v →
      i.get? "案號" = none →
      TCV.validate_all a i = .err (.keyError "案號")) ∧
    (∀ (a i : PyDict) (va vi : PyVal), a.get? "案號" = some va →
      i.get? "案號" = some vi → pyEq va vi = true →
      a.get? "案名" = none →
      TCV.validate_all a i = .err (.keyError "案名")) ∧
    (∀ (a i : PyDict) (va vi vn : PyVal), a.get? "案號" = some va →
      i.get? "案號" = some vi → pyEq va vi = true →
      a.get? "案名" = some vn → i.get? "採購標的名稱" = none →
      TCV.validate_all a i = .err (.keyError "採購標的名稱")) ∧
    (∀ a i : PyDict, WTA a →
      (a.get? "案號").isSome → (a.get? "案名").isSome →
      (i.get? "案號").isSome → (i.get? "採購標的名稱").isSome →
      ∃ r, TCV.validate_all a i = .ok r) ∧
    (∀ (a i : PyDict) (sa si : String), a.get? "案號" = some (.str sa) →
      i.get? "案號" = some (.str si) → a.get? "案名" = none →
      TAS.validate_all a i = .err (.keyError "案名")) := by
  refine ⟨?_, ?_, ?_, ?_, ?_, ?_⟩
  · intro a i ha
    unfold TCV.validate_all TCV.validate_all_from TCV.outcomes
      TCV.validate_item_1 PyDict.item
    simp [ha]
  · intro a i v ha hi
    unfold TCV.validate_all TCV.validate_all_from TCV.outcomes
      TCV.validate_item_1 PyDict.item
    simp [ha, hi]
  · intro a i va vi ha hi hEq hn
    unfold TCV.validate_all TCV.validate_all_from TCV.outcomes
      TCV.validate_item_1 PyDict.item
    simp [ha, hi, hEq, hn]
  · intro a i va vi vn ha hi hEq hn hm
    unfold TCV.validate_all TCV.validate_all_from TCV.outcomes
      TCV.validate_item_1 PyDict.item
    simp [ha, hi, hEq, hn, hm]
  · intro a i hw k1 k2 k3 k4
    obtain ⟨o1, g1⟩ := tcv_item1_ok a i k1 k2 k3 k4
    obtain ⟨o2, g2⟩ := tcv_item2_ok a i hw.tenderMethod hw.amount
    obtain ⟨o3, g3⟩ := tcv_item3_ok a i hw.tenderMethod
    obtain ⟨o17, g17⟩ := tcv_item17_ok a i hw.bond
    obtain ⟨o23, g23⟩ := tcv_item23_ok a i hw.opening
    have hout : TCV.outcomes a i = .ok (o1 ++ o2 ++ o3 ++
        TCV.validate_item_4 a i ++ TCV.validate_item_5 a i ++
        TCV.validate_item_6 a i ++ TCV.validate_item_7 a i ++
        TCV.validate_item_8 a i ++ TCV.validate_item_9 a i ++
        TCV.validate_item_10 a i ++ TCV.validate_item_11 a i ++
        TCV.validate_item_12 a i ++ TCV.validate_items_13_to_16 a i ++ o17 ++
        TCV.validate_item_18 a i ++ TCV.validate_item_20 a i ++
        TCV.validate_item_21 a i ++ o23) := by
      unfold TCV.outcomes
      simp only [g1, g2, g3, g17, g23, pres_bind_ok, pres_pure]
    exact ⟨_, tcv_all_ok_of_outcomes a i _ hout⟩
  · intro a i sa si ha hi hn
    unfold TAS.validate_all TAS.validate_all_from TAS.outcomes
      TAS.validate_item_1 PyDict.item
    simp [ha, hi, hn, pyAsStr]

/-- C10: witness.  Applying the missing-案號 clause at the empty pair and
the no-crash clause at the fully populated pair. -/
theorem c10_witness :
    TCV.validate_all [] [] = .err (.keyError "案號") ∧
    (∃ r, TCV.validate_all fullA fullI = .ok r) :=
  ⟨c10_amended.1 [] [] (by decide),
    c10_amended.2.2.2.2.1 fullA fullI
      ⟨by intro v h; simp [PyDict.get?, fullA] at h; rw [← h]; exact ⟨_, rfl⟩,
        by intro v h; simp [PyDict.get?, fullA] at h; rw [← h]; exact ⟨_, rfl⟩,
        by intro v h; simp [PyDict.get?, fullA] at h; rw [← h]; exact ⟨_, rfl⟩,
        by intro v h; simp [PyDict.get?, fullA] at h; rw [← h]; exact ⟨_, rfl⟩⟩
      (by decide) (by decide) (by decide) (by decide)⟩

/-- C10: counterexample.  An announcement record lacking 案名 for which
`validate_all` of `tender_compliance_validator.py` raises nothing at all:
the case numbers differ, item 1 short-circuits into the mismatch error and
the run completes normally, refuting "for every record lacking 案名 …
validate_all raises a KeyError". -/
theorem c10_counterexample :
    noNameA.get? "案名" = none ∧
    TCV.validate_all noNameA noNameI = .ok noNameRes := by
  refine ⟨by decide, by decide⟩

/-! ## Claim C7 -/

theorem str_toList_append (a b : String) :
    (a ++ b).toList = a.toList ++ b.toList := rfl

/-- A JSON parse fails immediately on a head character that can start no
JSON value. -/
theorem parse_value_none_of_bad_head (fuel : Nat) (c : Char)
    (rest : List Char)
    (h0 : ¬ (c = ' ' ∨ c = '\n' ∨ c = '\t' ∨ c = '\r'))
    (h1 : ¬ c = braceL) (h2 : ¬ c = '[') (h3 : ¬ c = '\"')
    (h4 : ¬ c = 't') (h5 : ¬ c = 'f') (h6 : ¬ c = 'n')
    (h7 : ¬ (c = '-' ∨ c.isDigit = true)) :
    parseAux fuel .value (c :: rest) = none := by
  cases fuel
  · rfl
  · unfold parseAux
    rw [show jskipWs (c :: rest) = c :: rest from by
      unfold jskipWs
      simp [List.dropWhile, h0]]
    simp [h1, h2, h3, h4, h5, h6, h7]

theorem pyJsonLoads_none_of_bad_head (s : String) (c : Char)
    (rest : List Char) (hs : s.toList = c :: rest)
    (h0 : ¬ (c = ' ' ∨ c = '\n' ∨ c = '\t' ∨ c = '\r'))
    (h1 : ¬ c = braceL) (h2 : ¬ c = '[') (h3 : ¬ c = '\"')
    (h4 : ¬ c = 't') (h5 : ¬ c = 'f') (h6 : ¬ c = 'n')
    (h7 : ¬ (c = '-' ∨ c.isDigit = true)) :
    pyJsonLoads s = none := by
  unfold pyJsonLoads
  rw [hs, parse_value_none_of_bad_head _ c rest h0 h1 h2 h3 h4 h5 h6 h7]

/-- The error strings `call_gemma_ai` substitutes for non-200 statuses are
never decodable JSON. -/
theorem loads_err_status_none (code : Nat) :
    pyJsonLoads ("錯誤: " ++ toString code) = none := by
  refine pyJsonLoads_none_of_bad_head _ '錯'
    ('誤' :: ':' :: ' ' :: (toString code).toList) ?_ (by decide) (by decide)
    (by decide) (by decide) (by decide) (by decide) (by decide) (by decide)
  rw [str_toList_append]
  rfl

/-- Likewise for the exception strings. -/
theorem loads_exc_none (msg : String) :
    pyJsonLoads ("失敗: " ++ msg) = none := by
  refine pyJsonLoads_none_of_bad_head _ '失'
    ('敗' :: ':' :: ' ' :: msg.toList) ?_ (by decide) (by decide)
    (by decide) (by decide) (by decide) (by decide) (by decide) (by decide)
  rw [str_toList_append]
  rfl

/-- C7: amended.  The delegated-extraction error handling degrades without
raising on a non-200 status, on a network exception and on an undecodable
body (falling back to a record of regex-extracted fields defaulting to NA),
and the gemma-only variant's `_call_gemma_json` collapses every failure to
the decodable string of an empty object; but in `tender_audit_system.py` a
200 response whose body parses to a **non-object** JSON value raises
`AttributeError` at `data.get(...)`, so extraction is not exception-free. -/
theorem c7_amended :
    (∀ code : Nat, ∃ d,
      GO.extract_announcement_data_with_gemma (.httpStatus code) = .ok d) ∧
    (∀ msg : String, ∃ d,
      GO.extract_announcement_data_with_gemma (.netExc msg) = .ok d) ∧
    (GO.extract_announcement_data_with_gemma (.httpStatus 500) =
      .ok [("案號", .str "NA"), ("案名", .str "NA"), ("招標方式", .str "NA")]) ∧
    (∀ (s : String) (j : PyJson), pyJsonLoads s = some j →
      (∀ kvs, j ≠ PyJson.obj kvs) →
      GO.extract_announcement_data_with_gemma (.http200 s) =
        .err .attributeError) ∧
    (∀ code : Nat,
      GO.announcement_json_of_response (GO.call_gemma_json (.httpStatus code)) =
        .obj []) ∧
    (∀ msg : String,
      GO.announcement_json_of_response (GO.call_gemma_json (.netExc msg)) =
        .obj []) ∧
    (∀ s : String, pyJsonLoads s = none →
      GO.announcement_json_of_response s = .obj GO.default_announcement_data) := by
  refine ⟨?_, ?_, by rfl, ?_, ?_, ?_, ?_⟩
  · intro code
    unfold GO.extract_announcement_data_with_gemma GO.call_gemma_ai
    dsimp only
    rw [loads_err_status_none code]
    exact ⟨_, rfl⟩
  · intro msg
    unfold GO.extract_announcement_data_with_gemma GO.call_gemma_ai
    dsimp only
    rw [loads_exc_none msg]
    exact ⟨_, rfl⟩
  · intro s j hl hobj
    unfold GO.extract_announcement_data_with_gemma GO.call_gemma_ai
    dsimp only
    rw [hl]
    cases j with
    | obj kvs => exact absurd rfl (hobj kvs)
    | str v => rfl
    | int v => rfl
    | bool v => rfl
    | null => rfl
    | arr v => rfl
  · intro code; rfl
  · intro msg; rfl
  · intro s h
    unfold GO.announcement_json_of_response
    rw [h]

/-- C7: witness.  The non-object clause applied at the concrete response
`[1]`, and the degrade clauses at a concrete status and message. -/
theorem c7_witness :
    GO.extract_announcement_data_with_gemma (.http200 "[1]") =
      .err .attributeError ∧
    (∃ d, GO.extract_announcement_data_with_gemma (.httpStatus 404) = .ok d) ∧
    GO.announcement_json_of_response
      (GO.call_gemma_json (.netExc "timeout")) = .obj [] :=
  ⟨c7_amended.2.2.2.1 "[1]" (.arr [.int 1]) rfl (fun kvs h => by cases h),
    c7_amended.1 404,
    c7_amended.2.2.2.2.2.1 "timeout"⟩

/-- C7: counterexample.  A 200 response whose body is the JSON scalar `42`
makes `extract_announcement_data_with_gemma` raise `AttributeError`
(`json.loads` succeeds with a non-dict, then `data.get` explodes), so the
field-extraction operation does not always return a record without
raising. -/
theorem c7_counterexample :
    GO.extract_announcement_data_with_gemma (.http200 "42") =
      .err .attributeError := rfl

/-! ## Claim C5 -/

/-- C5: amended.  The bid-bond check never yields SKIP on any input: the
v2.1 smart check has no skip branch at all, and the `"NA"` sentinel is
normalized to the integer 0 by `smart_parse_amount`, after which the check
compares it like any amount.  Equal positive normalized amounts with the
第19點一定金額 box checked do pass; normalized amounts that differ outside
the tolerated configurations fail with the **parsed** integers (not the raw
strings) in the description; and the 23-item validator's item 17 fails on
any unequal raw pair, echoing both raw values. -/
theorem c5_amended :
    (∀ a i : PyDict,
      (V21.validate_item_17_smart a i).status ≠ V21.VStatus.skip) ∧
    (V21.smart_parse_amount (.str "NA") = 0) ∧
    (∀ (a i : PyDict) (g x : Int),
      V21.smart_parse_amount (a.getD "押標金" (.int 0)) = g →
      V21.smart_parse_amount (i.getD "押標金金額" (.int 0)) = x →
      g = x → 0 < g →
      pyEq (i.getD "第19點一定金額" (.str "")) (.str "已勾選") = true →
      (V21.validate_item_17_smart a i).status = V21.VStatus.pass ∧
      (V21.validate_item_17_smart a i).description =
        "押標金一致：" ++ toString g ++ "元") ∧
    (∀ (a i : PyDict) (g x : Int),
      V21.smart_parse_amount (a.getD "押標金" (.int 0)) = g →
      V21.smart_parse_amount (i.getD "押標金金額" (.int 0)) = x →
      g ≠ x → ¬ (0 < g ∧ 0 < x) →
      (V21.validate_item_17_smart a i).status = V21.VStatus.fail ∧
      (V21.validate_item_17_smart a i).description =
        "押標金不一致：公告" ++ toString g ++ " vs 須知" ++ toString x) ∧
    (∀ a i : PyDict,
      pyEq (a.getD "押標金" (.int 0)) (i.getD "押標金金額" (.int 0)) = false →
      TCV.validate_item_17 a i = .ok [.fail ⟨17, "押標金不一致",
        "公告:" ++ pyStrOf (a.getD "押標金" (.int 0)) ++ " vs 須知:" ++
          pyStrOf (i.getD "押標金金額" (.int 0))⟩]) := by
  refine ⟨?_, rfl, ?_, ?_, ?_⟩
  · intro a i
    unfold V21.validate_item_17_smart
    dsimp only
    split_ifs <;> simp
  · rintro a i g x rfl rfl hEq hPos hChk
    unfold V21.validate_item_17_smart
    dsimp only
    rw [if_neg (not_not_intro hEq), if_pos hPos, if_neg (not_not_intro hChk)]
    exact ⟨rfl, rfl⟩
  · rintro a i g x rfl rfl hNe hNp
    unfold V21.validate_item_17_smart
    dsimp only
    rw [if_pos hNe, if_neg hNp]
    exact ⟨rfl, rfl⟩
  · intro a i hne
    unfold TCV.validate_item_17
    dsimp only
    rw [if_pos (by simp [hne])]
    rfl

/-- C5: witness.  The pass, fail-with-parsed-values and 23-item-fail clauses
applied at concrete dictionaries. -/
theorem c5_witness :
    (V21.validate_item_17_smart [("押標金", PyVal.int 31400)]
        [("押標金金額", PyVal.int 31400),
         ("第19點一定金額", PyVal.str "已勾選")]).status =
      V21.VStatus.pass ∧
    (V21.validate_item_17_smart [("押標金", PyVal.str "NA")]
        [("押標金金額", PyVal.int 50000)]).description =
      "押標金不一致：公告0 vs 須知50000" ∧
    TCV.validate_item_17 [("押標金", PyVal.str "NA")]
        [("押標金金額", PyVal.int 50000)] =
      .ok [.fail ⟨17, "押標金不一致", "公告:NA vs 須知:50000"⟩] :=
  ⟨(c5_amended.2.2.1 _ _ 31400 31400 (by decide) (by decide) rfl (by decide)
      (by decide)).1,
   (c5_amended.2.2.2.1 _ _ 0 50000 (by decide) (by decide) (by decide)
      (by decide)).2,
   (c5_amended.2.2.2.2 [("押標金", PyVal.str "NA")]
      [("押標金金額", PyVal.int 50000)] (by decide)).trans (by decide)⟩

/-- C5: counterexample.  With the announcement bid bond set to the unknown
sentinel `"NA"` and the instructions amount 50000, the smart check FAILS
(`"NA"` silently parses to 0), it does not SKIP, and the 23-item validator
likewise records a failure — refuting the claimed skip-on-unknown
behaviour. -/
theorem c5_counterexample :
    (V21.validate_item_17_smart [("押標金", PyVal.str "NA")]
        [("押標金金額", PyVal.int 50000)]).status = V21.VStatus.fail ∧
    (V21.validate_item_17_smart [("押標金", PyVal.str "NA")]
        [("押標金金額", PyVal.int 50000)]).status ≠ V21.VStatus.skip ∧
    TCV.validate_item_17 [("押標金", PyVal.str "NA")]
        [("押標金金額", PyVal.int 50000)] =
      .ok [.fail ⟨17, "押標金不一致", "公告:NA vs 須知:50000"⟩] :=
  ⟨by decide, by decide, by decide⟩

/-! ## Claim C3 -/

theorem string_ne_append_A (c : String) : c ≠ c ++ "A" := by
  intro h
  have h2 : c.toList.length = ((c ++ "A").toList).length := by rw [← h]
  rw [str_toList_append, List.length_append] at h2
  have h3 : ("A".toList).length = 1 := rfl
  omega

theorem isPrefixOf_append_self (l t : List Char) :
    l.isPrefixOf (l ++ t) = true := by
  induction l with
  | nil => cases t <;> rfl
  | cons x xs ih => simp [List.isPrefixOf, ih]

/-- Normalization-equal case numbers score `(True, 1.0)`. -/
theorem icns_of_norm_eq (c1 c2 : String)
    (h : pyUpper (pyStrip c1) = pyUpper (pyStrip c2)) :
    V21.is_case_number_similar c1 c2 = (true, 1) := by
  unfold V21.is_case_number_similar
  dsimp only
  rw [if_pos h]

/-- A normalized case number against itself plus a trailing `A` scores
`(True, 0.95)`. -/
theorem icns_norm_append_A (c : String)
    (h1 : pyUpper (pyStrip c) = c)
    (h2 : pyUpper (pyStrip (c ++ "A")) = c ++ "A") :
    V21.is_case_number_similar c (c ++ "A") = (true, 19/20) := by
  have hp : pyStartsWith (c ++ "A") c = true := by
    unfold pyStartsWith
    rw [str_toList_append]
    exact isPrefixOf_append_self _ _
  have hl : max c.toList.length ((c ++ "A").toList).length -
      min c.toList.length ((c ++ "A").toList).length = 1 := by
    rw [str_toList_append, List.length_append]
    have h3 : ("A".toList).length = 1 := rfl
    omega
  have he : pyEndsWithChar (c ++ "A") 'A' = true := by
    unfold pyEndsWithChar
    rw [str_toList_append, show ("A".toList) = [ 'A'] from rfl,
      List.getLast?_concat]
    rfl
  unfold V21.is_case_number_similar
  dsimp only
  rw [h1, h2, if_neg (string_ne_append_A c), if_pos (by simp [hp, hl, he])]

theorem seqRatio_C14_C14B : seqRatio "C14" "C14B" = 6/7 := by
  unfold seqRatio
  dsimp only
  rw [show "C14".toList.length = 3 from rfl,
    show "C14B".toList.length = 4 from rfl, if_neg (by decide),
    show totalMatched (3 + 4) "C14".toList "C14B".toList = 3 from by decide]
  norm_num

theorem icns_C14_C14B :
    V21.is_case_number_similar "C14" "C14B" = (false, 6/7) := by
  unfold V21.is_case_number_similar
  dsimp only
  rw [show pyUpper (pyStrip "C14") = "C14" from by decide,
    show pyUpper (pyStrip "C14B") = "C14B" from by decide,
    if_neg (by decide), if_neg (by decide)]
  unfold V21.similarity_ratio
  rw [if_neg (by decide), seqRatio_C14_C14B]
  have h : ¬ ((6/7 : ℚ) > 9/10) := by norm_num
  rw [decide_eq_false h]

theorem seqRatio_digit :
    seqRatio "C14A00149" "C14A001491" = 18/19 := by
  unfold seqRatio
  dsimp only
  rw [show "C14A00149".toList.length = 9 from rfl,
    show "C14A001491".toList.length = 10 from rfl, if_neg (by decide),
    show totalMatched (9 + 10) "C14A00149".toList "C14A001491".toList = 9
      from by decide]
  norm_num

theorem icns_digit :
    V21.is_case_number_similar "C14A00149" "C14A001491" = (true, 18/19) := by
  unfold V21.is_case_number_similar
  dsimp only
  rw [show pyUpper (pyStrip "C14A00149") = "C14A00149" from by decide,
    show pyUpper (pyStrip "C14A001491") = "C14A001491" from by decide,
    if_neg (by decide), if_neg (by decide)]
  unfold V21.similarity_ratio
  rw [if_neg (by decide), seqRatio_digit]
  have h : (18/19 : ℚ) > 9/10 := by norm_num
  rw [decide_eq_true h]

theorem seqRatio_self_w : seqRatio "w" "w" = 1 := by
  unfold seqRatio
  dsimp only
  rw [show "w".toList.length = 1 from rfl, if_neg (by decide),
    show totalMatched (1 + 1) "w".toList "w".toList = 1 from by decide]
  norm_num

theorem simratio_w : V21.similarity_ratio "w" "w" = 1 := by
  unfold V21.similarity_ratio
  rw [if_neg (by decide), seqRatio_self_w]

/-- Smart item 1 records a WARNING whenever the matcher is similar with
confidence below 1. -/
theorem v21_item1_warning (a i : PyDict) (c1 c2 : String)
    (ha : a.getD "案號" (.str "") = .str c1)
    (hi : i.getD "案號" (.str "") = .str c2)
    (hr1 : (V21.is_case_number_similar c1 c2).1 = true)
    (hr2 : (V21.is_case_number_similar c1 c2).2 < 1) :
    V21.vStatusOf (V21.validate_item_1_smart a i) =
      some V21.VStatus.warning ∧
    V21.vDescOf (V21.validate_item_1_smart a i) =
      some "案號存在細微差異（可能是結尾A問題）" := by
  unfold V21.validate_item_1_smart
  dsimp only
  rw [ha, hi]
  simp only [pyAsStr, pres_bind_ok]
  rw [if_neg (by simp [hr1]), if_pos hr2]
  exact ⟨rfl, rfl⟩

/-- Smart item 1 records a FAIL whenever the matcher says dissimilar. -/
theorem v21_item1_fail (a i : PyDict) (c1 c2 : String)
    (ha : a.getD "案號" (.str "") = .str c1)
    (hi : i.getD "案號" (.str "") = .str c2)
    (hr : (V21.is_case_number_similar c1 c2).1 = false) :
    V21.vStatusOf (V21.validate_item_1_smart a i) = some V21.VStatus.fail := by
  unfold V21.validate_item_1_smart
  dsimp only
  rw [ha, hi]
  simp only [pyAsStr, pres_bind_ok]
  rw [if_pos (by simp [hr])]
  rfl

/-- Smart item 1 records a PASS when the matcher gives confidence 1 and the
names are sufficiently similar. -/
theorem v21_item1_pass (a i : PyDict) (c1 c2 n1 n2 : String)
    (ha : a.getD "案號" (.str "") = .str c1)
    (hi : i.getD "案號" (.str "") = .str c2)
    (hn1 : a.getD "案名" (.str "") = .str n1)
    (hn2 : i.getD "採購標的名稱" (.str "") = .str n2)
    (hr : V21.is_case_number_similar c1 c2 = (true, 1))
    (hs : ¬ V21.similarity_ratio n1 n2 < 4/5) :
    V21.vStatusOf (V21.validate_item_1_smart a i) = some V21.VStatus.pass ∧
    V21.vDescOf (V21.validate_item_1_smart a i) = some "案號案名完全一致" := by
  unfold V21.validate_item_1_smart
  dsimp only
  rw [ha, hi, hn1, hn2]
  simp only [pyAsStr, pres_bind_ok]
  rw [hr]
  rw [if_neg (by simp), if_neg (by norm_num), if_neg hs]
  exact ⟨rfl, rfl⟩

theorem pyDropChar_append_A (s : String) :
    pyDropChar (s ++ "A") 'A' = pyDropChar s 'A' := by
  unfold pyDropChar
  rw [str_toList_append, List.filter_append]
  have h : List.filter (fun x => x ≠ 'A') ("A".toList) = [] := rfl
  rw [h, List.append_nil]

/-- C3: amended.  The case-number comparison behaves as claimed only in
part: normalization-equal strings score `(True, 1.0)` and pass; one extra
trailing `A` (specifically the letter A, which the code special-cases)
yields a warning with confidence 0.95; but any other divergence falls back
to a `SequenceMatcher` ratio with threshold 0.9, so another trailing letter
fails on short case numbers (ratio 6/7 ≤ 0.9) while an extra trailing
*digit* on a long case number yields a warning (ratio 18/19 > 0.9), not a
failure.  The 22-item validator instead deletes every `A` before an exact
comparison, so a trailing `A` there passes outright with no warning. -/
theorem c3_amended :
    (∀ c1 c2 : String, pyUpper (pyStrip c1) = pyUpper (pyStrip c2) →
      V21.is_case_number_similar c1 c2 = (true, 1)) ∧
    (∀ c : String, pyUpper (pyStrip c) = c →
      pyUpper (pyStrip (c ++ "A")) = c ++ "A" →
      V21.is_case_number_similar c (c ++ "A") = (true, 19/20)) ∧
    (∀ (a i : PyDict) (c1 c2 : String),
      a.getD "案號" (.str "") = .str c1 →
      i.getD "案號" (.str "") = .str c2 →
      (V21.is_case_number_similar c1 c2).1 = true →
      (V21.is_case_number_similar c1 c2).2 < 1 →
      V21.vStatusOf (V21.validate_item_1_smart a i) =
        some V21.VStatus.warning ∧
      V21.vDescOf (V21.validate_item_1_smart a i) =
        some "案號存在細微差異（可能是結尾A問題）") ∧
    (∀ (a i : PyDict) (c1 c2 : String),
      a.getD "案號" (.str "") = .str c1 →
      i.getD "案號" (.str "") = .str c2 →
      (V21.is_case_number_similar c1 c2).1 = false →
      V21.vStatusOf (V21.validate_item_1_smart a i) =
        some V21.VStatus.fail) ∧
    (∀ (a i : PyDict) (c1 c2 n1 n2 : String),
      a.getD "案號" (.str "") = .str c1 →
      i.getD "案號" (.str "") = .str c2 →
      a.getD "案名" (.str "") = .str n1 →
      i.getD "採購標的名稱" (.str "") = .str n2 →
      V21.is_case_number_similar c1 c2 = (true, 1) →
      ¬ V21.similarity_ratio n1 n2 < 4/5 →
      V21.vStatusOf (V21.validate_item_1_smart a i) =
        some V21.VStatus.pass ∧
      V21.vDescOf (V21.validate_item_1_smart a i) =
        some "案號案名完全一致") ∧
    (V21.is_case_number_similar "C14" "C14B" = (false, 6/7)) ∧
    (V21.is_case_number_similar "C14A00149" "C14A001491" = (true, 18/19)) ∧
    (∀ s : String, pyDropChar (s ++ "A") 'A' = pyDropChar s 'A') ∧
    (TAS.validate_item_1
        [("案號", PyVal.str "C14A00149"), ("案名", PyVal.str "w")]
        [("案號", PyVal.str "C14A00149A"), ("採購標的名稱", PyVal.str "w")] =
      .ok [.pass 1]) :=
  ⟨icns_of_norm_eq, icns_norm_append_A, v21_item1_warning, v21_item1_fail,
    v21_item1_pass, icns_C14_C14B, icns_digit, pyDropChar_append_A,
    by decide⟩

/-- C3: witness.  The clauses applied at concrete case numbers: a
normalization-equal pair, the trailing-A pair, and the warning / fail /
pass paths of the smart item 1. -/
theorem c3_witness :
    V21.is_case_number_similar " c14a00149 " "C14A00149" = (true, 1) ∧
    V21.is_case_number_similar "C14A00149" ("C14A00149" ++ "A") =
      (true, 19/20) ∧
    V21.vStatusOf (V21.validate_item_1_smart
        [("案號", PyVal.str "C14A00149"), ("案名", PyVal.str "w")]
        [("案號", PyVal.str "C14A00149A"), ("採購標的名稱", PyVal.str "w")]) =
      some V21.VStatus.warning ∧
    V21.vStatusOf (V21.validate_item_1_smart
        [("案號", PyVal.str "C14")] [("案號", PyVal.str "C14B")]) =
      some V21.VStatus.fail ∧
    V21.vStatusOf (V21.validate_item_1_smart
        [("案號", PyVal.str "C14A00149"), ("案名", PyVal.str "w")]
        [("案號", PyVal.str "C14A00149"), ("採購標的名稱", PyVal.str "w")]) =
      some V21.VStatus.pass := by
  refine ⟨c3_amended.1 _ _ (by decide),
    c3_amended.2.1 "C14A00149" (by decide) (by decide), ?_, ?_, ?_⟩
  · refine (c3_amended.2.2.1 _ _ "C14A00149" "C14A00149A" (by decide)
      (by decide) ?_ ?_).1
    · rw [show "C14A00149A" = "C14A00149" ++ "A" from by decide,
        c3_amended.2.1 "C14A00149" (by decide) (by decide)]
    · rw [show "C14A00149A" = "C14A00149" ++ "A" from by decide,
        c3_amended.2.1 "C14A00149" (by decide) (by decide)]
      norm_num
  · exact c3_amended.2.2.2.1 _ _ "C14" "C14B" (by decide) (by decide)
      (by rw [icns_C14_C14B])
  · exact (c3_amended.2.2.2.2.1 _ _ "C14A00149" "C14A00149" "w" "w"
      (by decide) (by decide) (by decide) (by decide)
      (icns_of_norm_eq _ _ rfl) (by rw [simratio_w]; norm_num)).1

/-- C3: counterexample.  `"C14"` vs `"C14B"` differ by one trailing
alphabetic character, yet the matcher says dissimilar (ratio 6/7 ≤ 0.9) and
smart item 1 FAILS instead of warning; conversely `"C14A00149"` vs
`"C14A001491"` is a non-trailing-letter divergence that does NOT fail
(ratio 18/19 > 0.9); and the 22-item validator passes a trailing-A pair
outright, with no warning status at all. -/
theorem c3_counterexample :
    (V21.is_case_number_similar "C14" "C14B").1 = false ∧
    V21.vStatusOf (V21.validate_item_1_smart
        [("案號", PyVal.str "C14")] [("案號", PyVal.str "C14B")]) =
      some V21.VStatus.fail ∧
    (V21.is_case_number_similar "C14A00149" "C14A001491").1 = true ∧
    TAS.validate_item_1
        [("案號", PyVal.str "C14A00149"), ("案名", PyVal.str "w")]
        [("案號", PyVal.str "C14A00149A"), ("採購標的名稱", PyVal.str "w")] =
      .ok [.pass 1] := by
  refine ⟨by rw [icns_C14_C14B], ?_, by rw [icns_digit], by decide⟩
  exact v21_item1_fail _ _ "C14" "C14B" rfl rfl (by rw [icns_C14_C14B])

/-! ## Claim C4 -/

theorem tierVal_le_two (s : String) : C23.tierVal s ≤ 2 := by
  unfold C23.tierVal
  split_ifs <;> omega

theorem tfoldl_le : ∀ (l : List C23.CheckRes) (a k : Nat), a ≤ k →
    (∀ x ∈ l, C23.tierVal x.risk ≤ k) →
    l.foldl (fun m c => max m (C23.tierVal c.risk)) a ≤ k := by
  intro l
  induction l with
  | nil => intro a k ha _; simpa using ha
  | cons x xs ih =>
    intro a k ha hf
    simp only [List.foldl_cons]
    exact ih _ _ (max_le ha (hf x (List.mem_cons_self x xs)))
      (fun y hy => hf y (List.mem_cons_of_mem x hy))

theorem tfoldl_ge_acc : ∀ (l : List C23.CheckRes) (a : Nat),
    a ≤ l.foldl (fun m c => max m (C23.tierVal c.risk)) a := by
  intro l
  induction l with
  | nil => intro a; simp
  | cons x xs ih =>
    intro a
    simp only [List.foldl_cons]
    exact le_trans (le_max_left a (C23.tierVal x.risk)) (ih _)

theorem tfoldl_ge_mem : ∀ (l : List C23.CheckRes) (a : Nat)
    (x : C23.CheckRes), x ∈ l →
    C23.tierVal x.risk ≤ l.foldl (fun m c => max m (C23.tierVal c.risk)) a := by
  intro l
  induction l with
  | nil => intro a x hx; cases hx
  | cons y ys ih =>
    intro a x hx
    simp only [List.foldl_cons]
    rcases List.mem_cons.mp hx with h | h
    · subst h
      exact le_trans (le_max_right a (C23.tierVal x.risk)) (tfoldl_ge_acc ys _)
    · exact ih _ x h

/-- `generate_report` realizes the maximum-failed-tier rule exactly. -/
theorem c23_report_risk (results : List C23.CheckRes) :
    C23.riskTierVal (C23.generate_report results).riskAssessment =
      C23.specFailTier results := by
  unfold C23.generate_report C23.specFailTier
  dsimp only
  by_cases h1 : results.filter
      (fun r => r.status = "fail" ∧ r.risk = "high") = []
  · rw [if_neg (not_not_intro h1)]
    by_cases h2 : results.filter
        (fun r => r.status = "fail" ∧ r.risk = "medium") = []
    · rw [if_neg (not_not_intro h2)]
      dsimp only
      have hub := tfoldl_le (results.filter (fun r => r.status = "fail")) 0 0
        le_rfl (by
          intro x hx
          have hxm := List.mem_filter.mp hx
          have hxs : x.status = "fail" := by simpa using hxm.2
          by_cases hxr : x.risk = "high"
          · have hmem : x ∈ results.filter
                (fun r => r.status = "fail" ∧ r.risk = "high") :=
              List.mem_filter.mpr ⟨hxm.1, by simp [hxs, hxr]⟩
            rw [h1] at hmem
            exact absurd hmem (List.not_mem_nil x)
          · by_cases hxr2 : x.risk = "medium"
            · have hmem : x ∈ results.filter
                  (fun r => r.status = "fail" ∧ r.risk = "medium") :=
                List.mem_filter.mpr ⟨hxm.1, by simp [hxs, hxr2]⟩
              rw [h2] at hmem
              exact absurd hmem (List.not_mem_nil x)
            · unfold C23.tierVal
              rw [if_neg hxr, if_neg hxr2])
      rw [show C23.riskTierVal "🟢 低風險" = 0 from by decide]
      exact (Nat.le_zero.mp hub).symm
    · rw [if_pos h2]
      dsimp only
      obtain ⟨r, hr⟩ := List.exists_mem_of_ne_nil _ h2
      have hrm := List.mem_filter.mp hr
      have hrc : r.status = "fail" ∧ r.risk = "medium" := by simpa using hrm.2
      have hrF : r ∈ results.filter (fun r => r.status = "fail") :=
        List.mem_filter.mpr ⟨hrm.1, by simp [hrc.1]⟩
      have hlb := tfoldl_ge_mem (results.filter (fun r => r.status = "fail"))
        0 r hrF
      rw [hrc.2, show C23.tierVal "medium" = 1 from by decide] at hlb
      have hub := tfoldl_le (results.filter (fun r => r.status = "fail")) 0 1
        (by omega) (by
          intro x hx
          have hxm := List.mem_filter.mp hx
          have hxs : x.status = "fail" := by simpa using hxm.2
          by_cases hxr : x.risk = "high"
          · have hmem : x ∈ results.filter
                (fun r => r.status = "fail" ∧ r.risk = "high") :=
              List.mem_filter.mpr ⟨hxm.1, by simp [hxs, hxr]⟩
            rw [h1] at hmem
            exact absurd hmem (List.not_mem_nil x)
          · unfold C23.tierVal
            rw [if_neg hxr]
            split_ifs <;> omega)
      rw [show C23.riskTierVal "🟡 中風險" = 1 from by decide]
      exact (le_antisymm hub hlb).symm
  · rw [if_pos h1]
    dsimp only
    obtain ⟨r, hr⟩ := List.exists_mem_of_ne_nil _ h1
    have hrm := List.mem_filter.mp hr
    have hrc : r.status = "fail" ∧ r.risk = "high" := by simpa using hrm.2
    have hrF : r ∈ results.filter (fun r => r.status = "fail") :=
      List.mem_filter.mpr ⟨hrm.1, by simp [hrc.1]⟩
    have hlb := tfoldl_ge_mem (results.filter (fun r => r.status = "fail"))
      0 r hrF
    rw [hrc.2, show C23.tierVal "high" = 2 from by decide] at hlb
    have hub := tfoldl_le (results.filter (fun r => r.status = "fail")) 0 2
      (by omega) (fun x _ => tierVal_le_two _)
    rw [show C23.riskTierVal "🔴 高風險" = 2 from by decide]
    exact (le_antisymm hub hlb).symm

theorem filter_and_nil (results : List C23.CheckRes) (q : String)
    (h : results.filter (fun r => r.status = "fail") = []) :
    results.filter (fun r => r.status = "fail" ∧ r.risk = q) = [] := by
  rw [List.eq_nil_iff_forall_not_mem]
  intro x hx
  have hxm := List.mem_filter.mp hx
  have hx2 : x.status = "fail" ∧ x.risk = q := by simpa using hxm.2
  have hmem : x ∈ results.filter (fun r => r.status = "fail") :=
    List.mem_filter.mpr ⟨hxm.1, by simp [hx2.1]⟩
  rw [h] at hmem
  exact absurd hmem (List.not_mem_nil x)

/-- Zero failed checks yield the low-risk report whatever else the
results contain. -/
theorem c23_report_low_of_no_fail (results : List C23.CheckRes)
    (h : results.filter (fun r => r.status = "fail") = []) :
    (C23.generate_report results).riskAssessment = "🟢 低風險" := by
  unfold C23.generate_report
  dsimp only
  rw [if_neg (not_not_intro (filter_and_nil results "high" h)),
    if_neg (not_not_intro (filter_and_nil results "medium" h))]

/-- C4: amended.  The 23-item checker's `generate_report` does realize the
claimed rule: its rendered risk equals the maximum risk tier among failed
checks (high > medium > low), and with zero failed checks it is 低風險
regardless of anything else.  But `generate_summary` of
`tender_audit_system.py` classifies by the **count** of failures (高 iff at
least 3, 中 iff at least 1), ignoring tiers entirely — its inputs do not
even carry a tier — so for it the claim holds only in the zero-failure
case. -/
theorem c4_amended :
    (∀ results : List C23.CheckRes,
      C23.riskTierVal (C23.generate_report results).riskAssessment =
        C23.specFailTier results) ∧
    (∀ results : List C23.CheckRes,
      results.filter (fun r => r.status = "fail") = [] →
      (C23.generate_report results).riskAssessment = "🟢 低風險") ∧
    (∀ r : VResults, (TAS.generate_summary r).riskLevel =
      if 3 ≤ r.failCount then "高"
      else if 1 ≤ r.failCount then "中" else "低") ∧
    (∀ r : VResults, r.failCount = 0 →
      (TAS.generate_summary r).riskLevel = "低") := by
  refine ⟨c23_report_risk, c23_report_low_of_no_fail, fun r => rfl, ?_⟩
  intro r h
  unfold TAS.generate_summary
  dsimp only
  rw [h]
  decide

/-- C4: witness.  The zero-failure clauses applied at a concrete all-pass
result list and a concrete zero-failure rule-engine result. -/
theorem c4_witness :
    (C23.generate_report
        [⟨1, "案號案名一致性", "pass", "x", "x", "", "high", ""⟩]).riskAssessment =
      "🟢 低風險" ∧
    (TAS.generate_summary ⟨"通過", [], [], [], 22, 22, 0⟩).riskLevel = "低" :=
  ⟨c4_amended.2.1 _ (by decide), c4_amended.2.2.2 _ rfl⟩

/-- C4: counterexample.  An input making exactly items 9, 15 and 16 fail:
all three carry the **low** tier in the declared 23-item checklist, so the
maximum failed tier is low, yet `generate_summary` reports 風險評估 高
because it counts three failures — the count-based rule, not the claimed
maximum-tier rule. -/
theorem c4_counterexample :
    TAS.validate_all lowFailA lowFailI = .ok lowFailRes ∧
    lowFailRes.failList = [9, 15, 16] ∧
    (TAS.generate_summary lowFailRes).riskLevel = "高" ∧
    C23.checklistRisk 9 = some "low" ∧
    C23.checklistRisk 15 = some "low" ∧
    C23.checklistRisk 16 = some "low" := by
  refine ⟨by decide, by decide, by decide, by decide, by decide, by decide⟩

end TenderAudit
